import Mathlib

/-!
# Verification of the QATest source-code-to-test-scenario pipeline

Shallow embedding of the response-recovery parser, the fallback scenario
generator (`src/services/ai_generator.py`) and the entity-name resolution of
the two static analyzers (`src/services/code_analyzer.py`,
`src/models/code_scanner.py`).

All string-processing functions work on `List Char` and mirror the Python
source line by line.  JSON values are modelled by the inductive `JVal`
(numbers restricted to integers — no numeric literal in the analysed payload
logic is fractional); `json.loads` is modelled by the fuel-based `jsonParse`
which, like Python's strict decoder, rejects literal control characters
inside string literals.  A Python exception escaping a function is modelled
by `Except.error` / `Option.none`.
-/

/-- The whitespace characters skipped by `_fix_robot_code_newlines`
(`' \t\n\r'`, ai_generator.py line 652) — also the JSON token whitespace. -/
def isJsonWs (c : Char) : Bool :=
  c = ' ' || c = '\t' || c = '\n' || c = '\r'

/-- ASCII whitespace of Python's regex `\s` class. -/
def isRegexWs (c : Char) : Bool :=
  c = ' ' || c = '\t' || c = '\n' || c = '\r' || c = '\x0c' || c = '\x0b'

/-- ASCII whitespace stripped by Python's `str.strip()`. -/
def isPyWs (c : Char) : Bool :=
  c = ' ' || c = '\t' || c = '\n' || c = '\r' || c = '\x0c' || c = '\x0b'

/-- `s.strip() != ''` for a Python string: some character is not whitespace.
The source only ever uses `robot_code.strip()` in boolean position
(ai_generator.py lines 716 and 765), so the embedding keeps the test, not
the stripped string. -/
def hasNonWs (s : String) : Bool :=
  s.data.any (fun c => !isPyWs c)

/-- Python `str.replace` for a two-character pattern: left-to-right,
non-overlapping. -/
def replace2 (a b : Char) (rep : List Char) : List Char → List Char
  | [] => []
  | [c] => [c]
  | c :: d :: rest =>
    if c = a ∧ d = b then rep ++ replace2 a b rep rest
    else c :: replace2 a b rep (d :: rest)

/-- Python `str.replace` for a single-character pattern. -/
def replace1 (a : Char) (rep : List Char) : List Char → List Char
  | [] => []
  | c :: rest => (if c = a then rep else [c]) ++ replace1 a rep rest

/-- `robot_code.replace('\\n', '\n').replace('\\t', '    ')`
(ai_generator.py lines 761-762 and 714): escaped newlines become real
newlines and escaped tabs become four spaces. -/
def unescapeBody (cs : List Char) : List Char :=
  replace2 '\\' 't' ("    ".data) (replace2 '\\' 'n' ("\n".data) cs)

/-- Python `str.title()` (ASCII): uppercase a letter that follows a
non-letter, lowercase a letter that follows a letter. -/
def pyTitleGo (prevAlpha : Bool) : List Char → List Char
  | [] => []
  | c :: rest =>
    (if c.isAlpha then (if prevAlpha then c.toLower else c.toUpper) else c)
      :: pyTitleGo c.isAlpha rest

/-- Python `str.title()` on a string. -/
def pyTitle (s : String) : String :=
  String.mk (pyTitleGo false s.data)

/-- Python `f'TC{i:03d}'`: zero-pad the decimal rendering to width 3. -/
def pad3 (n : Nat) : String :=
  if n < 10 then "TC00" ++ toString n
  else if n < 100 then "TC0" ++ toString n
  else "TC" ++ toString n

/-- JSON values as produced by `json.loads`, with numbers restricted to the
integers (no payload handled by the analysed code carries a fractional
number). -/
inductive JVal where
  | null : JVal
  | bool : Bool → JVal
  | num : Int → JVal
  | str : String → JVal
  | arr : List JVal → JVal
  | obj : List (String × JVal) → JVal

/-- Python `dict.get(k)` on a parsed JSON object: the decoder keeps the last
binding of a duplicated key, so lookup scans left to right remembering the
last hit. -/
def jsonGet (fields : List (String × JVal)) (k : String) : Option JVal :=
  fields.foldl (fun acc kv => if kv.1 = k then some kv.2 else acc) none

/-- Python `str()` of a decoded JSON value (used only inside f-string
placeholders); containers render through `repr` of their elements.  Fuel
bounds the recursion depth; every value reached in the source is finite and
shallow, so the bound is never hit. -/
def pyStrF : Nat → JVal → String
  | _, .null => "None"
  | _, .bool true => "True"
  | _, .bool false => "False"
  | _, .num n => toString n
  | 0, _ => ""
  | _ + 1, .str s => s
  | fuel + 1, .arr xs =>
    "[" ++ String.intercalate ", " (xs.map (fun v => pyReprF fuel v)) ++ "]"
  | fuel + 1, .obj fs =>
    "\x7b" ++ String.intercalate ", "
      (fs.map (fun kv => "\x27" ++ kv.1 ++ "\x27: " ++ pyReprF fuel kv.2)) ++ "\x7d"
where
  /-- Python `repr()` of a decoded JSON value (strings get quoted). -/
  pyReprF : Nat → JVal → String
    | _, .null => "None"
    | _, .bool true => "True"
    | _, .bool false => "False"
    | _, .num n => toString n
    | 0, _ => ""
    | _ + 1, .str s => "\x27" ++ s ++ "\x27"
    | fuel + 1, .arr xs =>
      "[" ++ String.intercalate ", " (xs.map (fun v => pyReprF fuel v)) ++ "]"
    | fuel + 1, .obj fs =>
      "\x7b" ++ String.intercalate ", "
        (fs.map (fun kv => "\x27" ++ kv.1 ++ "\x27: " ++ pyReprF fuel kv.2)) ++ "\x7d"

/-- Python `str()` of a decoded JSON value. -/
def pyStr (v : JVal) : String := pyStrF 1000 v

/-- Decode the body of a JSON string literal (opening quote already
consumed): returns the decoded characters and the input after the closing
quote.  Like Python's strict `json.loads`, a literal control character
(< 0x20, in particular a raw newline, carriage return or tab) is rejected.
`\uXXXX` escapes are not modelled — no payload handled by the analysed code
uses them. -/
def jsonStrChars : List Char → Option (List Char × List Char)
  | [] => none
  | '"' :: rest => some ([], rest)
  | '\\' :: e :: rest =>
    (match e with
     | '"' => some '"'
     | '\\' => some '\\'
     | '/' => some '/'
     | 'b' => some '\x08'
     | 'f' => some '\x0c'
     | 'n' => some '\n'
     | 'r' => some '\r'
     | 't' => some '\t'
     | _ => none).bind
      (fun c => (jsonStrChars rest).map
        (fun (p : List Char × List Char) => (c :: p.1, p.2)))
  | c :: rest =>
    if c.toNat < 32 then none
    else (jsonStrChars rest).map (fun p => (c :: p.1, p.2))

/-- Read a non-empty run of decimal digits. -/
def jsonDigits : List Char → Option (Nat × List Char)
  | c :: rest =>
    if c.isDigit then
      match jsonDigits rest with
      | some (n, r) =>
        some ((c.toNat - 48) * 10 ^ (rest.length - r.length) + n, r)
      | none => some (c.toNat - 48, rest)
    else none
  | [] => none

/-- Array tail: parse elements with `vp`, separated by `','`, ended by
`']'`.  Fuel-based so the definition reduces in the kernel. -/
def jsonArrGo (vp : List Char → Option (JVal × List Char)) :
    Nat → List Char → Option (List JVal × List Char)
  | 0, _ => none
  | n + 1, cs =>
    match vp cs with
    | none => none
    | some (v, rest) =>
      match rest.dropWhile isJsonWs with
      | ',' :: rest2 => (jsonArrGo vp n rest2).map (fun p => (v :: p.1, p.2))
      | ']' :: rest2 => some ([v], rest2)
      | _ => none

/-- Object tail: parse `"key" : value` members with `vp`, separated by
`','`, ended by `'}'`. -/
def jsonObjGo (vp : List Char → Option (JVal × List Char)) :
    Nat → List Char → Option (List (String × JVal) × List Char)
  | 0, _ => none
  | n + 1, cs =>
    match cs.dropWhile isJsonWs with
    | '"' :: restK =>
      match jsonStrChars restK with
      | none => none
      | some (key, restColon) =>
        match restColon.dropWhile isJsonWs with
        | ':' :: restV =>
          match vp restV with
          | none => none
          | some (v, rest) =>
            match rest.dropWhile isJsonWs with
            | ',' :: rest2 =>
              (jsonObjGo vp n rest2).map
                (fun p => ((String.mk key, v) :: p.1, p.2))
            | '}' :: rest2 => some ([(String.mk key, v)], rest2)
            | _ => none
        | _ => none
    | _ => none

/-- One JSON value (fuel-based recursion; the fuel only bounds the nesting
depth, which is at most the input length). -/
def jsonVal : Nat → List Char → Option (JVal × List Char)
  | 0, _ => none
  | fuel + 1, cs =>
    match cs.dropWhile isJsonWs with
    | '\x7b' :: rest =>
      (match rest.dropWhile isJsonWs with
       | '\x7d' :: rest2 => some (.obj [], rest2)
       | _ =>
         (jsonObjGo (jsonVal fuel) (rest.length + 1) rest).map
           (fun p => (.obj p.1, p.2)))
    | '[' :: rest =>
      (match rest.dropWhile isJsonWs with
       | ']' :: rest2 => some (.arr [], rest2)
       | _ =>
         (jsonArrGo (jsonVal fuel) (rest.length + 1) rest).map
           (fun p => (.arr p.1, p.2)))
    | '"' :: rest =>
      (jsonStrChars rest).map (fun p => (.str (String.mk p.1), p.2))
    | 't' :: 'r' :: 'u' :: 'e' :: rest => some (.bool true, rest)
    | 'f' :: 'a' :: 'l' :: 's' :: 'e' :: rest => some (.bool false, rest)
    | 'n' :: 'u' :: 'l' :: 'l' :: rest => some (.null, rest)
    | '-' :: rest =>
      (jsonDigits rest).map (fun p => (.num (-(p.1 : Int)), p.2))
    | cs' => (jsonDigits cs').map (fun p => (.num (p.1 : Int), p.2))

/-- Model of `json.loads`: parse one value and require only whitespace to
follow; `none` models `json.JSONDecodeError`. -/
def jsonParse (cs : List Char) : Option JVal :=
  match jsonVal (cs.length + 1) cs with
  | some (v, rest) => if (rest.dropWhile isJsonWs).isEmpty then some v else none
  | none => none

/-- One recovered test scenario (`TestScenario` of the spec).  The fields
`name`/`test_id`/`description`/`category`/`steps` are copied verbatim from
the decoded payload by `_extract_scenarios`, hence they are arbitrary JSON
values; `robot_code` (the `script_body`) is always a string — a non-string
value makes the Python code raise before any scenario is returned. -/
structure Scenario where
  name : JVal
  test_id : JVal
  description : JVal
  category : JVal
  steps : JVal
  robot_code : String

/-- The placeholder body synthesized when a recovered scenario has a blank
script body (ai_generator.py line 766). -/
def mkPlaceholder (name description : JVal) : String :=
  "*** Test Cases ***\n" ++ pyStr name ++ "\n    [Documentation]    "
    ++ pyStr description ++ "\n    Log    TODO: Implement test"

/-- The body of the `for i, sc in enumerate(scenarios, 1)` loop of
`AIGenerator._extract_scenarios` (ai_generator.py lines 757-775) for one
list element `sc` at 1-based raw position `i`:
`.ok none` models the `isinstance(sc, dict)` test skipping the element,
`.error` models the `AttributeError` raised by `.replace` when the
`robot_code` value is not a string. -/
def cleanScenario (modelName : String) (i : Nat) (sc : JVal) :
    Except String (Option Scenario) :=
  match sc with
  | .obj fields =>
    match (jsonGet fields "robot_code").getD (.str "") with
    | .str rc0 =>
      let rc := String.mk (unescapeBody rc0.data)
      let body :=
        if hasNonWs rc then rc
        else mkPlaceholder ((jsonGet fields "name").getD (.str "Test"))
          ((jsonGet fields "description").getD (.str "Generated test"))
      .ok (some
        { name := (jsonGet fields "name").getD
            (.str ("test_" ++ String.mk (replace1 '.' ['_'] modelName.data)
              ++ "_" ++ toString i))
          test_id := (jsonGet fields "test_id").getD (.str (pad3 i))
          description := (jsonGet fields "description").getD (.str "")
          category := (jsonGet fields "category").getD (.str "functional")
          steps := (jsonGet fields "steps").getD (.arr [])
          robot_code := body })
    | _ => .error "AttributeError"
  | _ => .ok none

/-- The `enumerate(scenarios, 1)` loop of `_extract_scenarios`: an error in
any iteration aborts the whole call (the Python exception propagates and no
list is returned). -/
def extractLoop (modelName : String) : Nat → List JVal →
    Except String (List Scenario)
  | _, [] => .ok []
  | i, sc :: rest => do
    let cleaned ← cleanScenario modelName i sc
    let tail ← extractLoop modelName (i + 1) rest
    pure (match cleaned with
          | some s => s :: tail
          | none => tail)

/-- `AIGenerator._extract_scenarios` (ai_generator.py lines 752-777).
`data.get('test_scenarios', data.get('test_cases', []))` needs `data` to be
a dict (otherwise Python raises `AttributeError`); iterating a string or a
dict yields only strings, which the `isinstance(sc, dict)` guard skips,
while iterating `None`, a bool or a number raises `TypeError`. -/
def extractScenarios (modelName : String) (data : JVal) :
    Except String (List Scenario) :=
  match data with
  | .obj fields =>
    match (jsonGet fields "test_scenarios").getD
        ((jsonGet fields "test_cases").getD (.arr [])) with
    | .arr xs => extractLoop modelName 1 xs
    | .str _ => .ok []
    | .obj _ => .ok []
    | _ => .error "TypeError"
  | _ => .error "AttributeError"

/-- Split a list at the first occurrence of `pat` (Python `str.find`):
returns the part before the match and the part starting at the match. -/
def splitAtPat (pat : List Char) : List Char → Option (List Char × List Char)
  | [] => if pat.isEmpty then some ([], []) else none
  | c :: rest =>
    if pat.isPrefixOf (c :: rest) then some ([], c :: rest)
    else (splitAtPat pat rest).map (fun p => (c :: p.1, p.2))

/-- The inner re-escaping loop of `_fix_robot_code_newlines`
(ai_generator.py lines 673-690): keep backslash pairs, escape literal
newline / carriage return / tab, copy everything else. -/
def escCtl : List Char → List Char
  | [] => []
  | '\\' :: c :: rest => '\\' :: c :: escCtl rest
  | '\n' :: rest => '\\' :: 'n' :: escCtl rest
  | '\r' :: rest => '\\' :: 'r' :: escCtl rest
  | '\t' :: rest => '\\' :: 't' :: escCtl rest
  | c :: rest => c :: escCtl rest

/-- The closing-quote scan of `_fix_robot_code_newlines` (ai_generator.py
lines 661-668): skip backslash-escaped pairs; return the span before the
closing quote and, when a closing quote was found, the input after it. -/
def scanClose : List Char → List Char × Option (List Char)
  | [] => ([], none)
  | c :: rest =>
    if c = '\\' then
      match rest with
      | [] => ([c], none)
      | d :: rest' =>
        let p := scanClose rest'
        (c :: d :: p.1, p.2)
    else if c = '"' then ([], some rest)
    else
      let p := scanClose rest
      (c :: p.1, p.2)

/-- The key `"robot_code"` scanned for by `_fix_robot_code_newlines`. -/
def rcKey : List Char := "\"robot_code\"".data

/-- The canonical replacement member emitted by `_fix_robot_code_newlines`
(ai_generator.py line 692): `f'"robot_code": "{fixed_content}"'`. -/
def rcCanon (content : List Char) : List Char :=
  rcKey ++ ':' :: ' ' :: '"' :: escCtl content ++ ['"']

/-- The scanning loop of `AIGenerator._fix_robot_code_newlines`
(ai_generator.py lines 633-695), one fuel unit per iteration; the wrapper
`fixRobotCodeNewlines` supplies enough fuel for any input.  Branches map to
the source as follows: no further `"robot_code"` → append the tail and stop
(line 639); no colon after it → append the rest and stop (line 647); the
first non-whitespace character after the colon is not a quote → copy up to
and including that character and continue after it (lines 655-658);
otherwise rewrite the member to its canonical form (line 692) and continue
after the closing quote (line 693), or stop if the quote was never
closed. -/
def fixGo : Nat → List Char → List Char
  | 0, cs => cs
  | fuel + 1, cs =>
    match splitAtPat rcKey cs with
    | none => cs
    | some (before, atM) =>
      match splitAtPat [':'] atM with
      | none => before ++ atM
      | some (preC, colonRest) =>
        let afterC := colonRest.drop 1
        let ws := afterC.takeWhile isJsonWs
        match afterC.dropWhile isJsonWs with
        | [] => before ++ atM
        | c :: rest' =>
          if c = '"' then
            match scanClose rest' with
            | (content, some rem) =>
              before ++ rcCanon content ++ fixGo fuel rem
            | (content, none) => before ++ rcCanon content
          else
            before ++ preC ++ ':' :: ws ++ [c] ++ fixGo fuel rest'

/-- `AIGenerator._fix_robot_code_newlines` (ai_generator.py lines 617-695).
Each loop iteration advances past at least one character, so `length + 1`
units of fuel always suffice. -/
def fixRobotCodeNewlines (cs : List Char) : List Char :=
  fixGo (cs.length + 1) cs

/-- Match a literal at the current position, returning the rest. -/
def dropLit (pat cs : List Char) : Option (List Char) :=
  if pat.isPrefixOf cs then some (cs.drop pat.length) else none

/-- Match `"key"\s*:\s*"` at the current position (the common prelude of
the salvage patterns in `_extract_scenarios_by_regex`, ai_generator.py
lines 702 and 712), returning the input after the opening quote of the
value.  `\s*` is greedy but the following literal is never a whitespace
character, so the match is deterministic. -/
def matchKeyQuote (key cs : List Char) : Option (List Char) :=
  (dropLit ('"' :: key ++ ['"']) cs).bind fun r1 =>
  (dropLit [':'] (r1.dropWhile isRegexWs)).bind fun r2 =>
  dropLit ['"'] (r2.dropWhile isRegexWs)

/-- Capture `[^"]*` up to a closing quote: the regex class excludes the
quote, so the greedy capture is deterministic; `none` when no closing quote
exists. -/
def capToQuote : List Char → Option (List Char × List Char)
  | [] => none
  | c :: rest =>
    if c = '"' then some ([], rest)
    else (capToQuote rest).map (fun p => (c :: p.1, p.2))

/-- The lazy `[^}]*?` of the salvage triple pattern with continuation `k`:
try the continuation first, then extend over one non-`'}'` character at a
time (exactly Python's lazy-quantifier backtracking order). -/
def lazyNB {α : Type} (k : List Char → Option α) : List Char → Option α
  | [] => k []
  | c :: rest =>
    match k (c :: rest) with
    | some r => some r
    | none => if c = '\x7d' then none else lazyNB k rest

/-- One attempt of the triple pattern
`"name"\s*:\s*"([^"]+)"[^}]*?"test_id"\s*:\s*"([^"]+)"[^}]*?"description"\s*:\s*"([^"]*)"`
(ai_generator.py line 702) at the current position: captures
(name, test_id, description) and the rest after the match. -/
def matchTriple (cs : List Char) :
    Option ((String × String × String) × List Char) :=
  (matchKeyQuote "name".data cs).bind fun r1 =>
  (capToQuote r1).bind fun p1 =>
  if p1.1.isEmpty then none else
  lazyNB (fun cs2 =>
    (matchKeyQuote "test_id".data cs2).bind fun r3 =>
    (capToQuote r3).bind fun p2 =>
    if p2.1.isEmpty then none else
    lazyNB (fun cs3 =>
      (matchKeyQuote "description".data cs3).bind fun r5 =>
      (capToQuote r5).map fun p3 =>
      ((String.mk p1.1, String.mk p2.1, String.mk p3.1), p3.2)) p2.2) p1.2

/-- `re.finditer` of the triple pattern: leftmost matches, scanning resumes
after each match end.  Records (start, captures, end) positions, as the
source uses `match.start()` and `match.end()` to carve the robot-code
window.  Fuel is one unit per scanned position. -/
def findTriplesGo : Nat → Nat → List Char →
    List (Nat × (String × String × String) × Nat)
  | 0, _, _ => []
  | fuel + 1, pos, cs =>
    match matchTriple cs with
    | some (caps, rest) =>
      let len := cs.length - rest.length
      (pos, caps, pos + len) :: findTriplesGo fuel (pos + len) rest
    | none =>
      match cs with
      | [] => []
      | _ :: t => findTriplesGo fuel (pos + 1) t

/-- The lookahead `(?=\s*[,}])` of the robot-code pattern. -/
def robotLookahead (cs : List Char) : Bool :=
  match cs.dropWhile isRegexWs with
  | ',' :: _ => true
  | '\x7d' :: _ => true
  | _ => false

/-- The lazy `(.*?)` (DOTALL) of `"robot_code"\s*:\s*"(.*?)"(?=\s*[,}])`
(ai_generator.py line 712): try the closing quote plus lookahead first,
else take one more character (any character) into the capture. -/
def lazyAnyCap : List Char → Option (List Char)
  | [] => none
  | c :: rest =>
    if c = '"' ∧ robotLookahead rest then some []
    else (lazyAnyCap rest).map (fun l => c :: l)

/-- The robot-code pattern tried at one position. -/
def robotAt (cs : List Char) : Option (List Char) :=
  (matchKeyQuote "robot_code".data cs).bind lazyAnyCap

/-- `re.search` of the robot-code pattern: first position where it
matches. -/
def robotSearch : List Char → Option (List Char)
  | [] => none
  | c :: rest =>
    match robotAt (c :: rest) with
    | some r => some r
    | none => robotSearch rest

/-- `AIGenerator._extract_scenarios_by_regex` (ai_generator.py lines
697-728).  The `model_name` parameter is unused, exactly as in the
source. -/
def extractScenariosByRegex (modelName : String) (cs : List Char) :
    List Scenario :=
  (findTriplesGo (cs.length + 1) 0 cs).map (fun t =>
    let nm := t.2.1.1
    let tid := t.2.1.2.1
    let descr := t.2.1.2.2
    let chunk := (cs.drop t.1).take (t.2.2 + 2000 - t.1)
    let rc := unescapeBody ((robotSearch chunk).getD [])
    let body :=
      if hasNonWs (String.mk rc) then String.mk rc
      else "*** Test Cases ***\n" ++ nm ++ "\n    [Documentation]    "
        ++ descr ++ "\n    Log    TODO: Implement test"
    { name := .str nm
      test_id := .str tid
      description := .str descr
      category := .str "functional"
      steps := .arr []
      robot_code := body })

/-- Largest index `i < bound` holding a `'}'` (Python
`json_str.rfind('}', 0, bound)`). -/
def rfindBrace (cs : List Char) (bound : Nat) : Option Nat :=
  ((List.range bound).filter (fun i => cs.get? i = some '\x7d')).getLast?

/-- The `while last_brace > 0` loop of `AIGenerator._truncate_to_valid_json`
(ai_generator.py lines 735-748): cut after the brace, append the closing
brackets/braces needed to balance (Python's `']' * n` with a negative `n`
is empty, exactly like truncated `Nat` subtraction), test-parse, and on
failure retry at the previous `'}'`. -/
def truncGo (cs : List Char) : Nat → Nat → Option (List Char)
  | 0, _ => none
  | fuel + 1, lb =>
    if lb = 0 then none
    else
      let t := cs.take (lb + 1)
      let t2 := t ++ List.replicate (t.count '[' - t.count ']') ']'
        ++ List.replicate (t.count '\x7b' - t.count '\x7d') '\x7d'
      if (jsonParse t2).isSome then some t2
      else
        match rfindBrace cs lb with
        | some j => truncGo cs fuel j
        | none => none

/-- `AIGenerator._truncate_to_valid_json` (ai_generator.py lines 730-750). -/
def truncateToValidJson (cs : List Char) : Option (List Char) :=
  match rfindBrace cs cs.length with
  | some lb => truncGo cs (lb + 1) lb
  | none => none

/-- `AIGenerator._try_parse_json_with_repair` (ai_generator.py lines
575-615).  Strategy 1: direct `json.loads`; only `JSONDecodeError` falls
through, an exception from `_extract_scenarios` propagates (`.error`).
Strategy 2: re-parse after `_fix_robot_code_newlines`.  Strategy 3: regex
salvage, used only when it yields a non-empty list.  Strategy 4: truncation
repair; when everything fails the parser returns the empty list, never an
error of its own. -/
def tryParseJsonWithRepair (modelName jsonStr : String) :
    Except String (List Scenario) :=
  match jsonParse jsonStr.data with
  | some d => extractScenarios modelName d
  | none =>
    match jsonParse (fixRobotCodeNewlines jsonStr.data) with
    | some d => extractScenarios modelName d
    | none =>
      let rs := extractScenariosByRegex modelName jsonStr.data
      if rs.isEmpty then
        match truncateToValidJson jsonStr.data with
        | some t =>
          match jsonParse t with
          | some d => extractScenarios modelName d
          | none => .ok []
        | none => .ok []
      else .ok rs

/-- One entry of the `fields` list of a parsed analysis record
(`QACodeScanner._extract_field_info` always emits `name` and `required`;
`_generate_fallback_tests` reads exactly these two). -/
structure FieldInfo where
  name : String
  required : Bool

/-- The parsed `analysis_json` of a `qa.model.analysis` record, restricted
to the keys `_generate_fallback_tests` reads: `fields`, `has_workflow` and
`states`.  `states := none` models an absent key, for which the source
falls back to `['draft']`; `some []` models a present but empty legal-value
list (as `_extract_model_info` produces for a selection declared through a
callable). -/
structure AnalysisData where
  fields : List FieldInfo
  has_workflow : Bool
  states : Option (List String)

/-- `AIGenerator._generate_fallback_tests` (ai_generator.py lines 779-859).
`none` models the `IndexError` raised by `states[0]` (line 842) when
`has_workflow` is set and the `states` key holds an empty list — the
exception escapes before any scenario list is returned. -/
def generateFallbackTests (modelName : String) (ad : AnalysisData) :
    Option (List Scenario) :=
  let modelVar := String.mk (replace1 '.' ['_'] modelName.data)
  let title := pyTitle (String.mk (replace1 '.' [' '] modelName.data))
  let crud : Scenario :=
    { name := .str ("test_create_" ++ modelVar ++ "_basic")
      test_id := .str "TC001"
      description := .str ("Basic create test for " ++ modelName)
      category := .str "crud"
      steps := .arr [.obj [("name", .str "Create record"),
        ("action", .str "create"), ("expected", .str "Record created")]]
      robot_code := "*** Test Cases ***\n"
        ++ "Test Create " ++ title ++ " Basic\n"
        ++ "    [Documentation]    Verify basic record creation for "
        ++ modelName ++ "\n"
        ++ "    [Tags]    crud    smoke    generated\n"
        ++ "    \n"
        ++ "    # Create a basic record\n"
        ++ "    $\x7brecord\x7d=    Create Record    " ++ modelName ++ "\n"
        ++ "    ...    name=Test Record\n"
        ++ "    \n"
        ++ "    # Verify creation\n"
        ++ "    Should Not Be Empty    $\x7brecord\x7d\n"
        ++ "    Log    Created record: $\x7brecord\x7d\n" }
  let requiredFields := (ad.fields.filter (fun f => f.required)).map
    (fun f => f.name)
  let valList : List Scenario :=
    if requiredFields.isEmpty then []
    else
      [{ name := .str ("test_create_" ++ modelVar ++ "_required_fields")
         test_id := .str "TC002"
         description := .str ("Test required fields for " ++ modelName)
         category := .str "validation"
         steps := .arr [.obj [("name", .str "Create without required"),
           ("action", .str "create"), ("expected", .str "Should fail")]]
         robot_code := "*** Test Cases ***\n"
           ++ "Test Create " ++ title ++ " Without Required Fields\n"
           ++ "    [Documentation]    Verify " ++ modelName ++ " requires: "
           ++ String.intercalate ", " requiredFields ++ "\n"
           ++ "    [Tags]    validation    negative    generated\n"
           ++ "    \n"
           ++ "    # Attempt to create without required fields should fail\n"
           ++ "    Run Keyword And Expect Error    *\n"
           ++ "    ...    Create Record    " ++ modelName ++ "\n" }]
  if ad.has_workflow then
    match ad.states.getD ["draft"] with
    | [] => none
    | s0 :: rest =>
      some (crud :: valList ++
        [{ name := .str ("test_" ++ modelVar ++ "_workflow")
           test_id := .str "TC003"
           description := .str ("Test workflow for " ++ modelName)
           category := .str "workflow"
           steps := .arr [.obj [("name", .str "Check initial state"),
             ("action", .str "verify"),
             ("expected", .str ("State is " ++ s0))]]
           robot_code := "*** Test Cases ***\n"
             ++ "Test " ++ title ++ " Workflow\n"
             ++ "    [Documentation]    Verify workflow states: "
             ++ String.intercalate " -> " (s0 :: rest) ++ "\n"
             ++ "    [Tags]    workflow    generated\n"
             ++ "    \n"
             ++ "    # Create record\n"
             ++ "    $\x7brecord\x7d=    Create Record    " ++ modelName ++ "\n"
             ++ "    ...    name=Workflow Test\n"
             ++ "    \n"
             ++ "    # Verify initial state\n"
             ++ "    $\x7bstate\x7d=    Get Field Value    $\x7brecord\x7d    state\n"
             ++ "    Should Be Equal    $\x7bstate\x7d    " ++ s0 ++ "\n" }])
  else some (crud :: valList)

/-- A right-hand side of a class-body assignment as far as the two
analyzers inspect it: a string constant (`ast.Constant` holding a string —
the only constants the analysed modules assign to the identifier
attributes), a list display, or anything else. -/
inductive PyExpr where
  | strConst : String → PyExpr
  | listExpr : List PyExpr → PyExpr
  | otherExpr : PyExpr

/-- An assignment target: a plain name (`ast.Name`) or anything else. -/
inductive PyTarget where
  | nameT : String → PyTarget
  | otherT : PyTarget

/-- A statement of a class body, as far as name resolution inspects it. -/
inductive ClassStmt where
  | assign : List PyTarget → PyExpr → ClassStmt
  | otherStmt : ClassStmt

/-- The `for target in node.targets` loop of `CodeAnalyzer._analyze_class`
(code_analyzer.py lines 242-252).  A `_name` string constant sets the name
and `break`s — but the `break` only leaves this inner loop, so the outer
statement loop keeps scanning and a later `_inherit` assignment overwrites
the recorded name. -/
def scanTargets (value : PyExpr) : Option String → List PyTarget →
    Option String
  | mn, [] => mn
  | mn, .otherT :: rest => scanTargets value mn rest
  | mn, .nameT t :: rest =>
    if t = "_name" then
      match value with
      | .strConst s => some s
      | _ => scanTargets value mn rest
    else if t = "_inherit" then
      match value with
      | .strConst s => scanTargets value (some s) rest
      | .listExpr (e :: _) =>
        match e with
        | .strConst s => scanTargets value (some s) rest
        | _ => scanTargets value mn rest
      | .listExpr [] => scanTargets value mn rest
      | _ => scanTargets value mn rest
    else scanTargets value mn rest

/-- The `model_name` resolution of `CodeAnalyzer._analyze_class`
(code_analyzer.py lines 237-255): a single mutable variable updated by
every `_name`/`_inherit` assignment in statement order. -/
def analyzeClassModelName (body : List ClassStmt) : Option String :=
  go none body
where
  go : Option String → List ClassStmt → Option String
  | mn, [] => mn
  | mn, .assign ts v :: rest => go (scanTargets v mn ts) rest
  | mn, .otherStmt :: rest => go mn rest

/-- Python truthiness of an optional string (`not model_name` is true for
both `None` and `''`). -/
def pyTruthy : Option String → Bool
  | some s => !s.isEmpty
  | none => false

/-- The `model_name` / `inherit` resolution of
`QACodeScanner._extract_model_info` (code_scanner.py lines 260-325): the
two identifiers are tracked separately and the result is
`model_name or inherit` (`None` when both are falsy). -/
def extractModelInfoName (body : List ClassStmt) : Option String :=
  let res := body.foldl
    (fun (acc : Option String × Option String) stmt =>
      match stmt with
      | .assign ts v =>
        ts.foldl (fun acc2 t =>
          match t with
          | .nameT n =>
            if n = "_name" then
              match v with
              | .strConst s => (some s, acc2.2)
              | _ => acc2
            else if n = "_inherit" then
              match v with
              | .strConst s => (acc2.1, some s)
              | .listExpr es =>
                (acc2.1, some (String.intercalate ", " (es.filterMap
                  (fun e => match e with
                            | PyExpr.strConst s => some s
                            | _ => none))))
              | _ => acc2
            else acc2
          | .otherT => acc2) acc
      | .otherStmt => acc)
    (none, none)
  if !pyTruthy res.1 ∧ !pyTruthy res.2 then none
  else if pyTruthy res.1 then res.1 else res.2

/-- A well-formed escaped string span: every backslash starts a two-character
escape pair and no unescaped quote occurs.  This is exactly the shape of the
characters between the opening and closing quote of a JSON string value
whose only defect may be literal control characters, and it makes the
closing-quote scan of `_fix_robot_code_newlines` stop at the real closing
quote. -/
def contentOk : List Char → Bool
  | [] => true
  | c :: rest =>
    if c = '\\' then
      match rest with
      | [] => false
      | _ :: rest' => contentOk rest'
    else if c = '"' then false
    else contentOk rest

/-- A well-formed completion payload: one scenario, script body `"x"`. -/
def payloadSimple : String :=
  "\x7b\"test_scenarios\": [\x7b\"name\": \"t\", \"robot_code\": \"x\"\x7d]\x7d"

/-- The scenario recovered from `payloadSimple`. -/
def scenSimple : Scenario :=
  { name := .str "t", test_id := .str "TC001", description := .str "",
    category := .str "functional", steps := .arr [], robot_code := "x" }

/-- Valid JSON whose scenario data sits under an unrecognized key `tests`:
direct parsing succeeds but extraction finds nothing, while the salvage
triple pattern would match. -/
def payloadUnrecognizedKey : String :=
  "\x7b\"tests\": [\x7b\"name\": \"a\", \"test_id\": \"TC001\", \"description\": \"d\"\x7d]\x7d"

/-- The scenario the regex-salvage strategy assembles from
`payloadUnrecognizedKey`. -/
def scenUnrecognizedKey : Scenario :=
  { name := .str "a", test_id := .str "TC001", description := .str "d",
    category := .str "functional", steps := .arr [],
    robot_code := "*** Test Cases ***\na\n    [Documentation]    d\n    Log    TODO: Implement test" }

/-- A payload that is valid JSON except for one literal newline inside the
`robot_code` string value, and in which the exact substring `"robot_code"`
also occurs earlier as the *value* of the `name` member. -/
def payloadValueCollision : String :=
  "\x7b\"test_scenarios\": [\x7b\"name\": \"robot_code\", \"test_id\": \"TC001\", \"description\": \"d\", \"category\": \"crud\", \"robot_code\": \"a\nb\"\x7d]\x7d"

/-- The equivalent properly-escaped payload (`\n` instead of the literal
newline). -/
def payloadValueCollisionEscaped : String :=
  "\x7b\"test_scenarios\": [\x7b\"name\": \"robot_code\", \"test_id\": \"TC001\", \"description\": \"d\", \"category\": \"crud\", \"robot_code\": \"a\\nb\"\x7d]\x7d"

/-- What direct parsing recovers from `payloadValueCollisionEscaped`. -/
def scenCollisionEscaped : Scenario :=
  { name := .str "robot_code", test_id := .str "TC001",
    description := .str "d", category := .str "crud", steps := .arr [],
    robot_code := "a\nb" }

/-- What the pipeline actually returns for `payloadValueCollision`
(assembled by regex salvage, hence category `functional` and no steps). -/
def scenCollisionSalvaged : Scenario :=
  { name := .str "robot_code", test_id := .str "TC001",
    description := .str "d", category := .str "functional", steps := .arr [],
    robot_code := "a\nb" }

/-- A payload truncated inside the trailing scenario *after* its
name/test_id/description triple is complete. -/
def payloadTruncatedLate : String :=
  "\x7b\"test_scenarios\": [\x7b\"name\": \"a\", \"test_id\": \"TC001\", \"description\": \"d1\", \"robot_code\": \"body1\"\x7d, \x7b\"name\": \"b\", \"test_id\": \"TC002\", \"description\": \"d2\", \"robot_c"

/-- A payload truncated inside the trailing scenario *before* its
description field completes. -/
def payloadTruncatedEarly : String :=
  "\x7b\"test_scenarios\": [\x7b\"name\": \"a\", \"test_id\": \"TC001\", \"description\": \"d1\", \"robot_code\": \"body1\"\x7d, \x7b\"name\": \"b\", \"test_id\": \"TC002\", \"descri"

/-- The complete first scenario of the truncated payloads. -/
def scenTruncComplete : Scenario :=
  { name := .str "a", test_id := .str "TC001", description := .str "d1",
    category := .str "functional", steps := .arr [], robot_code := "body1" }

/-- The trailing (truncated) scenario as salvaged from
`payloadTruncatedLate`: its body was cut off, so it gets the placeholder. -/
def scenTruncSalvaged : Scenario :=
  { name := .str "b", test_id := .str "TC002", description := .str "d2",
    category := .str "functional", steps := .arr [],
    robot_code := "*** Test Cases ***\nb\n    [Documentation]    d2\n    Log    TODO: Implement test" }

/-- A decoded payload whose single scenario carries a blank (present but
empty) `category`. -/
def dataBlankCategory : JVal :=
  .obj [("test_scenarios", .arr [.obj [("name", .str "t"),
    ("category", .str ""), ("robot_code", .str "x")]])]

/-- A valid payload whose two scenarios carry the same explicit
`test_id`. -/
def payloadDuplicateIds : String :=
  "\x7b\"test_scenarios\": [\x7b\"name\": \"a\", \"test_id\": \"TC001\", \"robot_code\": \"x\"\x7d, \x7b\"name\": \"b\", \"test_id\": \"TC001\", \"robot_code\": \"y\"\x7d]\x7d"

/-- A class body assigning `_name = 'model.a'` first and
`_inherit = 'model.b'` second. -/
def classBodyNameThenInherit : List ClassStmt :=
  [.assign [.nameT "_name"] (.strConst "model.a"),
   .assign [.nameT "_inherit"] (.strConst "model.b")]

/-- `{"test_scenarios": [{` — a completion payload up to the first
scenario's name key. -/
def tsHead : List Char := "\x7b\"test_scenarios\": [\x7b".data

/-- `"name": "` — the name member up to the opening quote of its value. -/
def nameKeyTxt : List Char := "\"name\": \"".data

/-- `", "test_id": "` — from the closing quote of the name value to the
opening quote of the test_id value. -/
def tidKeyTxt : List Char := "\", \"test_id\": \"".data

/-- `, "test_id": "` — `tidKeyTxt` without the leading closing quote. -/
def tidMidTxt : List Char := ", \"test_id\": \"".data

/-- `", "description": "` — from the closing quote of the test_id value to
the opening quote of the description value. -/
def descKeyTxt : List Char := "\", \"description\": \"".data

/-- `, "description": "` — `descKeyTxt` without the leading closing
quote. -/
def descMidTxt : List Char := ", \"description\": \"".data

/-- `, "robot_code": ` — from after the closing quote of the description
value to just before the opening quote of the robot_code value. -/
def rcMidPre : List Char := ", \"robot_code\": ".data

/-- `}, {` — between the first (complete) scenario object and the second,
truncated one. -/
def sepBrace : List Char := "\x7d, \x7b".data

/-- `, "robot_c` — the tail of a payload cut off inside the trailing
scenario's robot_code key, after its description value completed. -/
def cutLateTail : List Char := ", \"robot_c".data

/-- `, "descri` — the tail of a payload cut off inside the trailing
scenario's description key, after its test_id value completed. -/
def cutEarlyTail : List Char := ", \"descri".data

/-- A two-scenario completion payload truncated inside the trailing
scenario *after* its name/test_id/description triple is complete:
`{"test_scenarios": [{"name": "N1", "test_id": "I1", "description": "D1",
"robot_code": "B1"}, {"name": "N2", "test_id": "I2", "description": "D2",
"robot_c` — `payloadTruncatedLate` is the instance with fields
a/TC001/d1/body1/b/TC002/d2. -/
def truncLate (n1 i1 d1 b1 n2 i2 d2 : List Char) : List Char :=
  tsHead ++ (nameKeyTxt ++ (n1 ++ (tidKeyTxt ++ (i1 ++ (descKeyTxt ++ (d1 ++
    ('"' :: (rcMidPre ++ ('"' :: (b1 ++ ('"' :: (sepBrace ++ (nameKeyTxt ++
    (n2 ++ (tidKeyTxt ++ (i2 ++ (descKeyTxt ++ (d2 ++
    ('"' :: cutLateTail)))))))))))))))))))

/-- A two-scenario completion payload truncated inside the trailing
scenario *before* its description value starts:
`{"test_scenarios": [{"name": "N1", "test_id": "I1", "description": "D1",
"robot_code": "B1"}, {"name": "N2", "test_id": "I2", "descri` —
`payloadTruncatedEarly` is the instance with fields
a/TC001/d1/body1/b/TC002. -/
def truncEarly (n1 i1 d1 b1 n2 i2 : List Char) : List Char :=
  tsHead ++ (nameKeyTxt ++ (n1 ++ (tidKeyTxt ++ (i1 ++ (descKeyTxt ++ (d1 ++
    ('"' :: (rcMidPre ++ ('"' :: (b1 ++ ('"' :: (sepBrace ++ (nameKeyTxt ++
    (n2 ++ (tidKeyTxt ++ (i2 ++ ('"' :: cutEarlyTail)))))))))))))))))

/-- Sufficient local check that no position of a skeleton segment can start
a `"key"` match whose key begins with `k0`: each character either is not
`'"'` or is followed, still within the segment, by a character other than
`k0`. -/
def keyFailLocal (k0 : Char) : List Char → Bool
  | [] => true
  | c :: rest =>
    (if c = '"' then
      match rest with
      | [] => false
      | d :: _ => decide (d ≠ k0)
    else true) && keyFailLocal k0 rest

theorem hasNonWs_append (a b : String) :
    hasNonWs (a ++ b) = (hasNonWs a || hasNonWs b) := by
  cases a with
  | mk da =>
    cases b with
    | mk db => simp [hasNonWs, String.append, List.any_append]

theorem hasNonWs_testCasesHeader : hasNonWs "*** Test Cases ***\n" = true := by
  decide

theorem mkPlaceholder_nonWs (n d : JVal) :
    hasNonWs (mkPlaceholder n d) = true := by
  simp [mkPlaceholder, hasNonWs_append, hasNonWs_testCasesHeader]

theorem cleanScenario_body_nonWs (mn : String) (i : Nat) (sc : JVal)
    (s : Scenario) (h : cleanScenario mn i sc = .ok (some s)) :
    hasNonWs s.robot_code = true := by
  cases sc with
  | obj fields =>
    simp only [cleanScenario] at h
    split at h
    · split at h
      · next hws =>
          simp only [Except.ok.injEq, Option.some.injEq] at h
          subst h
          simpa using hws
      · simp only [Except.ok.injEq, Option.some.injEq] at h
        subst h
        simpa using mkPlaceholder_nonWs _ _
    · exact absurd h (by simp)
  | null => exact absurd h (by simp [cleanScenario])
  | bool b => exact absurd h (by simp [cleanScenario])
  | num n => exact absurd h (by simp [cleanScenario])
  | str s' => exact absurd h (by simp [cleanScenario])
  | arr xs => exact absurd h (by simp [cleanScenario])

theorem extractLoop_body_nonWs (mn : String) :
    ∀ (i : Nat) (xs : List JVal) (l : List Scenario),
      extractLoop mn i xs = .ok l →
      ∀ sc ∈ l, hasNonWs sc.robot_code = true := by
  intro i xs
  induction xs generalizing i with
  | nil =>
    intro l h sc hsc
    simp only [extractLoop, Except.ok.injEq] at h
    subst h
    cases hsc
  | cons x rest ih =>
    intro l h sc hsc
    simp only [extractLoop, bind, Except.bind] at h
    cases hx : cleanScenario mn i x with
    | error e => rw [hx] at h; cases h
    | ok cleaned =>
      rw [hx] at h
      cases ht : extractLoop mn (i + 1) rest with
      | error e => rw [ht] at h; cases h
      | ok tail =>
        rw [ht] at h
        simp only [pure, Except.pure, Except.ok.injEq] at h
        subst h
        cases cleaned with
        | none => exact ih (i + 1) tail ht sc hsc
        | some s0 =>
          rcases List.mem_cons.mp hsc with h1 | hmem
          · rw [h1]; exact cleanScenario_body_nonWs mn i x s0 hx
          · exact ih (i + 1) tail ht sc hmem

theorem extractScenarios_body_nonWs (mn : String) (d : JVal)
    (l : List Scenario) (h : extractScenarios mn d = .ok l) :
    ∀ sc ∈ l, hasNonWs sc.robot_code = true := by
  cases d with
  | obj fields =>
    simp only [extractScenarios] at h
    split at h
    · exact extractLoop_body_nonWs mn 1 _ l h
    · simp only [Except.ok.injEq] at h; subst h; intro sc hsc; cases hsc
    · simp only [Except.ok.injEq] at h; subst h; intro sc hsc; cases hsc
    · cases h
  | null => cases h
  | bool b => cases h
  | num n => cases h
  | str s => cases h
  | arr xs => cases h

theorem regex_scenario_shape (mn : String) (cs : List Char) :
    ∀ sc ∈ extractScenariosByRegex mn cs,
      sc.category = .str "functional" ∧ sc.steps = .arr [] ∧
        hasNonWs sc.robot_code = true := by
  intro sc hsc
  simp only [extractScenariosByRegex, List.mem_map] at hsc
  obtain ⟨t, _, rfl⟩ := hsc
  refine ⟨rfl, rfl, ?_⟩
  simp only
  split
  · assumption
  · simp only [hasNonWs_append, hasNonWs_testCasesHeader, Bool.true_or]

theorem fallback_body_nonWs (mn : String) (ad : AnalysisData)
    (l : List Scenario) (h : generateFallbackTests mn ad = some l) :
    ∀ sc ∈ l, hasNonWs sc.robot_code = true := by
  intro sc hsc
  simp only [generateFallbackTests] at h
  split at h
  · split at h
    · cases h
    · simp only [Option.some.injEq] at h
      subst h
      simp only [List.mem_cons, List.mem_append, List.mem_singleton,
        List.not_mem_nil, or_false] at hsc
      rcases hsc with (h1 | hv) | h3
      · rw [h1]; simp only [hasNonWs_append, hasNonWs_testCasesHeader, Bool.true_or]
      · split at hv
        · cases hv
        · simp only [List.mem_singleton] at hv
          rw [hv]; simp only [hasNonWs_append, hasNonWs_testCasesHeader, Bool.true_or]
      · rw [h3]; simp only [hasNonWs_append, hasNonWs_testCasesHeader, Bool.true_or]
  · simp only [Option.some.injEq] at h
    subst h
    simp only [List.mem_cons] at hsc
    rcases hsc with h1 | hsc
    · rw [h1]; simp only [hasNonWs_append, hasNonWs_testCasesHeader, Bool.true_or]
    · split at hsc
      · cases hsc
      · simp only [List.mem_singleton] at hsc
        rw [hsc]; simp only [hasNonWs_append, hasNonWs_testCasesHeader, Bool.true_or]

/-- C1: every scenario in a list returned by the response-recovery parser
(`_try_parse_json_with_repair`, hence also `_parse_code_test_response`,
which returns either `[]` or such a list), and every scenario returned by
the fallback generator, has a script body containing at least one
non-whitespace character. -/
theorem script_body_never_blank :
    (∀ (mn s : String) (l : List Scenario),
      tryParseJsonWithRepair mn s = .ok l →
      ∀ sc ∈ l, hasNonWs sc.robot_code = true) ∧
    (∀ (mn : String) (ad : AnalysisData) (l : List Scenario),
      generateFallbackTests mn ad = some l →
      ∀ sc ∈ l, hasNonWs sc.robot_code = true) := by
  constructor
  · intro mn s l h sc hsc
    simp only [tryParseJsonWithRepair] at h
    split at h
    · exact extractScenarios_body_nonWs mn _ l h sc hsc
    · split at h
      · exact extractScenarios_body_nonWs mn _ l h sc hsc
      · split at h
        · split at h
          · split at h
            · exact extractScenarios_body_nonWs mn _ l h sc hsc
            · simp only [Except.ok.injEq] at h; subst h; cases hsc
          · simp only [Except.ok.injEq] at h; subst h; cases hsc
        · simp only [Except.ok.injEq] at h
          subst h
          exact (regex_scenario_shape mn _ sc hsc).2.2
  · exact fallback_body_nonWs

set_option maxRecDepth 200000 in
/-- C1 witness: the pipeline on `payloadSimple` returns one scenario, and
the theorem instantiates to it. -/
theorem script_body_never_blank_witness :
    tryParseJsonWithRepair "m" payloadSimple = .ok [scenSimple] ∧
    hasNonWs scenSimple.robot_code = true :=
  ⟨rfl, script_body_never_blank.1 "m" payloadSimple [scenSimple] rfl
    scenSimple (List.mem_singleton.mpr rfl)⟩

/-- C10: every scenario assembled by the regex-salvage strategy has category
exactly `functional` and an empty steps list, whatever the raw text
contains. -/
theorem regex_salvage_category_and_steps :
    ∀ (mn : String) (cs : List Char), ∀ sc ∈ extractScenariosByRegex mn cs,
      sc.category = JVal.str "functional" ∧ sc.steps = JVal.arr [] :=
  fun mn cs sc hsc =>
    ⟨(regex_scenario_shape mn cs sc hsc).1,
     (regex_scenario_shape mn cs sc hsc).2.1⟩

set_option maxRecDepth 200000 in
/-- C10 witness: instantiated on the salvageable payload
`payloadUnrecognizedKey`, whose raw text carries no category at all. -/
theorem regex_salvage_category_and_steps_witness :
    extractScenariosByRegex "m" payloadUnrecognizedKey.data
      = [scenUnrecognizedKey] ∧
    scenUnrecognizedKey.category = JVal.str "functional" ∧
    scenUnrecognizedKey.steps = JVal.arr [] := by
  have hmem : scenUnrecognizedKey ∈
      extractScenariosByRegex "m" payloadUnrecognizedKey.data := by
    rw [(rfl : extractScenariosByRegex "m" payloadUnrecognizedKey.data
      = [scenUnrecognizedKey])]
    exact List.mem_singleton.mpr rfl
  exact ⟨rfl, regex_salvage_category_and_steps "m"
    payloadUnrecognizedKey.data scenUnrecognizedKey hmem⟩

/-- C3: with `_name = 'model.a'` assigned before `_inherit = 'model.b'`,
`CodeAnalyzer._analyze_class` records `model.b` — the later `_inherit`
assignment overwrites the primary identifier because the `break` after the
`_name` match only leaves the inner target loop — while
`QACodeScanner._extract_model_info` records `model.a` as the claim
states. -/
theorem analyze_class_inherit_overwrites_name :
    analyzeClassModelName classBodyNameThenInherit = some "model.b" ∧
    extractModelInfoName classBodyNameThenInherit = some "model.a" :=
  ⟨rfl, rfl⟩

/-- C4: with `has_workflow` set and a present-but-empty `states` list the
fallback generator raises `IndexError` at `states[0]` (modelled by `none`)
instead of returning a scenario list. -/
theorem fallback_empty_states_raises :
    generateFallbackTests "res.partner"
      { fields := [], has_workflow := true, states := some [] } = none :=
  rfl

set_option maxRecDepth 200000 in
/-- C6 counterexample: on valid JSON whose scenarios sit under an
unrecognized key, strategy 1 parses successfully and the function returns
the empty list, even though the later regex-salvage strategy would have
yielded a scenario (with a non-empty body) — so the parser does not stop at
the first strategy yielding at least one scenario. -/
theorem strategy_order_counterexample :
    tryParseJsonWithRepair "m" payloadUnrecognizedKey = .ok [] ∧
    extractScenariosByRegex "m" payloadUnrecognizedKey.data
      = [scenUnrecognizedKey] :=
  ⟨rfl, rfl⟩

set_option maxRecDepth 400000 in
/-- C8 counterexample: on a payload truncated after the trailing scenario's
name/test_id/description triple is complete, the parser returns the
truncated trailing scenario as well (salvaged with a placeholder body)
instead of discarding it. -/
theorem truncation_trailing_not_discarded :
    tryParseJsonWithRepair "m" payloadTruncatedLate
      = .ok [scenTruncComplete, scenTruncSalvaged] ∧
    scenTruncSalvaged.test_id = JVal.str "TC002" :=
  ⟨rfl, rfl⟩

set_option maxRecDepth 200000 in
/-- C9 counterexample: a payload whose two scenarios carry the same explicit
`test_id` comes back with duplicate ids — the parser copies explicit ids
verbatim, so the returned ids are not pairwise distinct. -/
theorem duplicate_test_ids_pass_through :
    tryParseJsonWithRepair "m" payloadDuplicateIds = .ok
      [{ name := .str "a", test_id := .str "TC001", description := .str "",
         category := .str "functional", steps := .arr [], robot_code := "x" },
       { name := .str "b", test_id := .str "TC001", description := .str "",
         category := .str "functional", steps := .arr [], robot_code := "y" }]
    ∧ ¬ [JVal.str "TC001", JVal.str "TC001"].Nodup :=
  ⟨rfl, by simp⟩

set_option maxRecDepth 200000 in
/-- C7 counterexample: a present-but-blank `category` is passed through
unchanged by the normalization step — it does not become `functional`. -/
theorem blank_category_not_defaulted :
    extractScenarios "m" dataBlankCategory = .ok
      [{ name := .str "t", test_id := .str "TC001", description := .str "",
         category := .str "", steps := .arr [], robot_code := "x" }] ∧
    JVal.str "" ≠ JVal.str "functional" :=
  ⟨rfl, by simp⟩

set_option maxRecDepth 400000 in
/-- C2 counterexample: on a payload where the exact substring
`"robot_code"` also occurs as the *value* of the `name` member, the
control-character repair corrupts the payload (its output no longer
parses), so the repair strategy does not recover the scenario list of the
properly-escaped payload — the pipeline falls through to regex salvage and
returns a scenario list differing from the escaped payload's one (category
`functional` instead of `crud`). -/
theorem fix_value_collision_counterexample :
    jsonParse (fixRobotCodeNewlines payloadValueCollision.data) = none ∧
    tryParseJsonWithRepair "m" payloadValueCollisionEscaped
      = .ok [scenCollisionEscaped] ∧
    tryParseJsonWithRepair "m" payloadValueCollision
      = .ok [scenCollisionSalvaged] ∧
    scenCollisionEscaped.category ≠ scenCollisionSalvaged.category := by
  refine ⟨rfl, rfl, rfl, ?_⟩
  simp [scenCollisionEscaped, scenCollisionSalvaged]

/-- C5: under the data-model invariant that a detected workflow carries a
non-empty legal-state list (spec section 4.2 step 4; an empty present list
instead raises, see the C4 record), the fallback generator produces exactly
one `crud` scenario, one `validation` scenario exactly when a required
attribute exists, and one `workflow` scenario exactly when the workflow
flag is set, in this order and nothing else; the workflow scenario's step
asserts that the initial state equals the first legal state value. -/
theorem fallback_scenario_set :
    ∀ (mn : String) (ad : AnalysisData),
      (ad.has_workflow = true → ad.states ≠ some []) →
      ∃ l, generateFallbackTests mn ad = some l ∧
        l.map (fun sc => sc.category) =
          JVal.str "crud" ::
          ((if (ad.fields.filter (fun f => f.required)).isEmpty then []
            else [JVal.str "validation"]) ++
           (if ad.has_workflow then [JVal.str "workflow"] else [])) ∧
        (∀ sc ∈ l, sc.category = JVal.str "workflow" →
          sc.steps = JVal.arr [.obj [("name", .str "Check initial state"),
            ("action", .str "verify"),
            ("expected", .str ("State is "
              ++ (ad.states.getD ["draft"]).headI))]]) := by
  intro mn ad hinv
  have hme : ((ad.fields.filter (fun f => f.required)).map
      (fun f => f.name)).isEmpty
      = (ad.fields.filter (fun f => f.required)).isEmpty := by
    cases ad.fields.filter (fun f => f.required) <;> simp
  by_cases hw : ad.has_workflow = true
  · cases hst : ad.states.getD ["draft"] with
    | nil =>
      exfalso
      cases hs : ad.states with
      | none => rw [hs] at hst; cases hst
      | some states' =>
        rw [hs] at hst
        simp only [Option.getD] at hst
        exact hinv hw (by rw [hs, hst])
    | cons s0 rest =>
      simp only [generateFallbackTests, hw, hst, if_true]
      refine ⟨_, rfl, ?_, ?_⟩
      · simp only [List.map_cons, List.map_append]
        by_cases hreq : (ad.fields.filter (fun f => f.required)).isEmpty
        · rw [if_pos (by rw [hme]; exact hreq), if_pos hreq]
          simp
        · rw [if_neg (by rw [hme]; exact hreq), if_neg hreq]
          simp
      · intro sc hsc hcat
        simp only [List.mem_cons, List.mem_append] at hsc
        rcases hsc with (h1 | h2) | h3
        · rw [h1] at hcat; simp at hcat
        · split at h2
          · cases h2
          · simp only [List.mem_singleton] at h2
            rw [h2] at hcat; simp at hcat
        · simp only [List.mem_singleton, List.not_mem_nil, or_false] at h3
          rw [h3]
          simp
  · simp only [generateFallbackTests, hw, if_false]
    refine ⟨_, rfl, ?_, ?_⟩
    · simp only [List.map_cons]
      by_cases hreq : (ad.fields.filter (fun f => f.required)).isEmpty
      · rw [if_pos (by rw [hme]; exact hreq), if_pos hreq]
        simp
      · rw [if_neg (by rw [hme]; exact hreq), if_neg hreq]
        simp
    · intro sc hsc hcat
      simp only [List.mem_cons] at hsc
      rcases hsc with h1 | h2
      · rw [h1] at hcat; simp at hcat
      · split at h2
        · cases h2
        · simp only [List.mem_singleton] at h2
          rw [h2] at hcat; simp at hcat

set_option maxRecDepth 200000 in
/-- C5 witness: an entity with one required attribute and a two-state
workflow yields exactly the crud/validation/workflow triple, the workflow
step asserting the first legal state `draft`. -/
theorem fallback_scenario_set_witness :
    ∃ l, generateFallbackTests "a.b"
        { fields := [{ name := "name", required := true }],
          has_workflow := true, states := some ["draft", "confirmed"] }
        = some l ∧
      l.map (fun sc => sc.category)
        = [JVal.str "crud", JVal.str "validation", JVal.str "workflow"] ∧
      (∀ sc ∈ l, sc.category = JVal.str "workflow" →
        sc.steps = JVal.arr [.obj [("name", .str "Check initial state"),
          ("action", .str "verify"),
          ("expected", .str "State is draft")]]) :=
  fallback_scenario_set "a.b"
    { fields := [{ name := "name", required := true }],
      has_workflow := true, states := some ["draft", "confirmed"] }
    (fun _ => by simp)

/-- C6 amended: the four strategies run in the fixed order direct parse,
control-character repair, regex salvage, truncation repair; strategies 1, 2
and 4 stop as soon as their JSON parse succeeds — returning whatever
extraction yields, possibly the empty list — while only the regex-salvage
strategy requires at least one assembled scenario to stop the cascade. -/
theorem strategy_cascade_characterization :
    (∀ (mn s : String) (d : JVal), jsonParse s.data = some d →
      tryParseJsonWithRepair mn s = extractScenarios mn d) ∧
    (∀ (mn s : String) (d : JVal), jsonParse s.data = none →
      jsonParse (fixRobotCodeNewlines s.data) = some d →
      tryParseJsonWithRepair mn s = extractScenarios mn d) ∧
    (∀ (mn s : String), jsonParse s.data = none →
      jsonParse (fixRobotCodeNewlines s.data) = none →
      extractScenariosByRegex mn s.data ≠ [] →
      tryParseJsonWithRepair mn s
        = .ok (extractScenariosByRegex mn s.data)) ∧
    (∀ (mn s : String), jsonParse s.data = none →
      jsonParse (fixRobotCodeNewlines s.data) = none →
      extractScenariosByRegex mn s.data = [] →
      tryParseJsonWithRepair mn s =
        (match truncateToValidJson s.data with
         | some t =>
           (match jsonParse t with
            | some d => extractScenarios mn d
            | none => .ok [])
         | none => .ok [])) := by
  refine ⟨?_, ?_, ?_, ?_⟩
  · intro mn s d h1
    simp only [tryParseJsonWithRepair, h1]
  · intro mn s d h1 h2
    simp only [tryParseJsonWithRepair, h1, h2]
  · intro mn s h1 h2 h3
    simp only [tryParseJsonWithRepair, h1, h2]
    rw [if_neg]
    simp only [List.isEmpty_iff]
    exact h3
  · intro mn s h1 h2 h3
    simp only [tryParseJsonWithRepair, h1, h2]
    rw [if_pos]
    simp only [List.isEmpty_iff]
    exact h3

set_option maxRecDepth 400000 in
/-- C6 amended witness: instantiating the regex-salvage clause on the
collision payload, whose direct and repaired parses both fail. -/
theorem strategy_cascade_characterization_witness :
    jsonParse payloadValueCollision.data = none ∧
    jsonParse (fixRobotCodeNewlines payloadValueCollision.data) = none ∧
    extractScenariosByRegex "m" payloadValueCollision.data ≠ [] ∧
    tryParseJsonWithRepair "m" payloadValueCollision
      = .ok (extractScenariosByRegex "m" payloadValueCollision.data) := by
  have hne : extractScenariosByRegex "m" payloadValueCollision.data ≠ [] := by
    rw [(rfl : extractScenariosByRegex "m" payloadValueCollision.data
      = [scenCollisionSalvaged])]
    exact List.cons_ne_nil _ _
  exact ⟨rfl, rfl, hne,
    strategy_cascade_characterization.2.2.1 "m" payloadValueCollision
      rfl rfl hne⟩

/-- C7 amended: for every scenario the normalization step returns, a
missing `test_id` is synthesized as `TC{i:03d}` from the 1-based raw
position, a missing `category` defaults to `functional` (a blank one is
passed through, see the counterexample), the body has escaped newlines
and tabs turned into real whitespace (`unescapeBody`), and an absent or
all-whitespace body is replaced by the non-empty placeholder. -/
theorem normalization_characterization :
    ∀ (mn : String) (i : Nat) (fields : List (String × JVal)) (s : Scenario),
      cleanScenario mn i (.obj fields) = .ok (some s) →
      (jsonGet fields "test_id" = none → s.test_id = .str (pad3 i)) ∧
      (jsonGet fields "category" = none → s.category = .str "functional") ∧
      hasNonWs s.robot_code = true ∧
      (∀ rc0 : String,
        (jsonGet fields "robot_code").getD (.str "") = .str rc0 →
        (hasNonWs (String.mk (unescapeBody rc0.data)) = true →
          s.robot_code = String.mk (unescapeBody rc0.data)) ∧
        (hasNonWs (String.mk (unescapeBody rc0.data)) = false →
          s.robot_code = mkPlaceholder
            ((jsonGet fields "name").getD (.str "Test"))
            ((jsonGet fields "description").getD (.str "Generated test")))) := by
  intro mn i fields s h
  simp only [cleanScenario] at h
  split at h
  · next rc0' heq =>
      split at h
      · next hws =>
          simp only [Except.ok.injEq, Option.some.injEq] at h
          subst h
          refine ⟨fun ht => by simp [ht], fun hc => by simp [hc],
            by simpa using hws, ?_⟩
          intro rc0 hrc
          rw [heq] at hrc
          cases hrc
          exact ⟨fun _ => rfl, fun hfalse => by rw [hws] at hfalse; cases hfalse⟩
      · next hws =>
          simp only [Except.ok.injEq, Option.some.injEq] at h
          subst h
          have hwsf : hasNonWs (String.mk (unescapeBody rc0'.data)) = false :=
            Bool.not_eq_true _ ▸ eq_false_of_ne_true hws
          refine ⟨fun ht => by simp [ht], fun hc => by simp [hc],
            by simpa using mkPlaceholder_nonWs _ _, ?_⟩
          intro rc0 hrc
          rw [heq] at hrc
          cases hrc
          exact ⟨fun htrue => absurd htrue (by simp [hwsf]),
            fun _ => rfl⟩
  · cases h

set_option maxRecDepth 200000 in
/-- C7 amended witness: a raw scenario with no test_id and no category and
an escaped-newline body at raw position 1. -/
theorem normalization_characterization_witness :
    cleanScenario "m" 1 (.obj [("name", JVal.str "t"),
        ("robot_code", JVal.str "x\\ny")]) = .ok (some
      { name := .str "t", test_id := .str "TC001", description := .str "",
        category := .str "functional", steps := .arr [],
        robot_code := "x\ny" }) ∧
    JVal.str "TC001" = JVal.str (pad3 1) ∧
    hasNonWs "x\ny" = true := by
  have happ := normalization_characterization "m" 1
    [("name", JVal.str "t"), ("robot_code", JVal.str "x\\ny")]
    { name := .str "t", test_id := .str "TC001", description := .str "",
      category := .str "functional", steps := .arr [],
      robot_code := "x\ny" } rfl
  exact ⟨rfl, (happ.1 rfl).symm ▸ rfl, happ.2.2.1⟩

/-- C9 amended: pairwise-distinct scenario ids are guaranteed for the
fallback generator's output (TC001-TC003); the parser instead copies
explicit payload ids verbatim, so duplicates pass through (see the
counterexample). -/
theorem fallback_ids_distinct :
    ∀ (mn : String) (ad : AnalysisData) (l : List Scenario),
      generateFallbackTests mn ad = some l →
      (l.map (fun sc => sc.test_id)).Nodup := by
  intro mn ad l h
  simp only [generateFallbackTests] at h
  split at h
  · split at h
    · cases h
    · simp only [Option.some.injEq] at h
      subst h
      simp only [List.map_cons, List.map_append]
      split
      · simp
      · simp
  · simp only [Option.some.injEq] at h
    subst h
    simp only [List.map_cons]
    split
    · simp
    · simp

set_option maxRecDepth 200000 in
/-- C9 amended witness: the fallback output for a minimal entity, with its
single id list checked distinct. -/
theorem fallback_ids_distinct_witness :
    generateFallbackTests "a.b"
      { fields := [], has_workflow := false, states := none } = some
      [{ name := JVal.str "test_create_a_b_basic",
         test_id := JVal.str "TC001",
         description := JVal.str "Basic create test for a.b",
         category := JVal.str "crud",
         steps := JVal.arr [JVal.obj [("name", JVal.str "Create record"),
           ("action", JVal.str "create"),
           ("expected", JVal.str "Record created")]],
         robot_code := "*** Test Cases ***\nTest Create A B Basic\n    [Documentation]    Verify basic record creation for a.b\n    [Tags]    crud    smoke    generated\n    \n    # Create a basic record\n    $\x7brecord\x7d=    Create Record    a.b\n    ...    name=Test Record\n    \n    # Verify creation\n    Should Not Be Empty    $\x7brecord\x7d\n    Log    Created record: $\x7brecord\x7d\n" }]
    ∧ ([JVal.str "TC001"]).Nodup := by
  constructor
  · rfl
  · exact fallback_ids_distinct "a.b"
      { fields := [], has_workflow := false, states := none } _ rfl

theorem isPrefixOf_self_append : ∀ (l t : List Char), l.isPrefixOf (l ++ t)
  | [], t => by simp [List.isPrefixOf]
  | a :: as, t => by
    simp [List.cons_append, List.isPrefixOf, isPrefixOf_self_append as t]

theorem isPrefixOf_nil_iff (pat : List Char) :
    pat.isPrefixOf [] = true ↔ pat = [] := by
  cases pat <;> simp [List.isPrefixOf]

theorem splitAtPat_first :
    ∀ (pat pre tail : List Char),
      (∀ i < pre.length, ¬ pat.isPrefixOf ((pre ++ tail).drop i))
      → pat.isPrefixOf tail
      → splitAtPat pat (pre ++ tail) = some (pre, tail)
  | pat, [], tail, _, hhead => by
    cases tail with
    | nil =>
      have : pat = [] := (isPrefixOf_nil_iff pat).mp hhead
      subst this
      rfl
    | cons c rest =>
      simp only [List.nil_append, splitAtPat]
      rw [if_pos hhead]
  | pat, p :: pre', tail, hpre, hhead => by
    have h0 : ¬ pat.isPrefixOf (p :: (pre' ++ tail)) := by
      have := hpre 0 (Nat.succ_pos _)
      simpa using this
    have ih := splitAtPat_first pat pre' tail
      (fun i hi => by
        have := hpre (i + 1) (Nat.succ_lt_succ hi)
        simpa using this)
      hhead
    simp only [List.cons_append, splitAtPat, List.append_eq]
    rw [if_neg h0, ih]
    rfl

theorem splitAtPat_none :
    ∀ (pat : List Char), pat ≠ [] → ∀ (cs : List Char),
      (∀ i, ¬ pat.isPrefixOf (cs.drop i)) → splitAtPat pat cs = none
  | pat, hne, [], _ => by
    simp [splitAtPat, List.isEmpty_iff, hne]
  | pat, hne, c :: rest, h => by
    have h0 : ¬ pat.isPrefixOf (c :: rest) := by simpa using h 0
    have ih := splitAtPat_none pat hne rest (fun i => by simpa using h (i + 1))
    simp only [splitAtPat]
    rw [if_neg h0, ih]
    rfl

theorem noPrefix_extend (pat : List Char) (hne : pat ≠ []) (cs : List Char)
    (h : ∀ i < cs.length, ¬ pat.isPrefixOf (cs.drop i)) :
    ∀ i, ¬ pat.isPrefixOf (cs.drop i) := by
  intro i
  by_cases hi : i < cs.length
  · exact h i hi
  · rw [List.drop_eq_nil_of_le (le_of_not_lt hi)]
    intro hp
    exact hne ((isPrefixOf_nil_iff pat).mp hp)

theorem splitAtPat_single (c : Char) :
    ∀ (a b : List Char), (∀ x ∈ a, x ≠ c) →
      splitAtPat [c] (a ++ c :: b) = some (a, c :: b)
  | [], b, _ => by
    simp only [List.nil_append, splitAtPat]
    rw [if_pos (by simp [List.isPrefixOf])]
  | x :: a', b, ha => by
    have hx : ¬ ([c].isPrefixOf (x :: (a' ++ c :: b))) := by
      simp only [List.isPrefixOf, Bool.and_eq_true, beq_iff_eq]
      intro hc
      exact ha x (List.mem_cons_self x a') hc.1.symm
    have ih := splitAtPat_single c a' b
      (fun y hy => ha y (List.mem_cons_of_mem x hy))
    simp only [List.cons_append, splitAtPat, List.append_eq]
    rw [if_neg hx, ih]
    rfl

theorem dropWhile_ws_prefix (p : Char → Bool) :
    ∀ (ws : List Char) (c : Char) (rest : List Char),
      (∀ x ∈ ws, p x = true) → p c = false →
      (ws ++ c :: rest).dropWhile p = c :: rest
  | [], c, rest, _, hc => by simp [List.dropWhile, hc]
  | w :: ws', c, rest, hws, hc => by
    have hw : p w = true := hws w (List.mem_cons_self w ws')
    have ih := dropWhile_ws_prefix p ws' c rest
      (fun x hx => hws x (List.mem_cons_of_mem w hx)) hc
    simp [List.dropWhile, hw, ih]

theorem scanClose_content :
    ∀ (content suf : List Char), contentOk content = true →
      scanClose (content ++ '"' :: suf) = (content, some suf)
  | [], suf, _ => by
    simp only [List.nil_append]
    rw [scanClose.eq_def]
    simp
  | c :: rest, suf, h => by
    by_cases hb : c = '\\'
    · subst hb
      cases rest with
      | nil =>
        rw [contentOk.eq_def] at h
        simp at h
      | cons d rest' =>
        have h' : contentOk rest' = true := by
          rw [contentOk.eq_def] at h
          simpa using h
        have ih := scanClose_content rest' suf h'
        rw [List.cons_append, List.cons_append, scanClose.eq_def]
        simp [ih]
    · by_cases hq : c = '"'
      · subst hq
        rw [contentOk.eq_def] at h
        simp at h
      · have h' : contentOk rest = true := by
          rw [contentOk.eq_def] at h
          simpa [hb, hq] using h
        have ih := scanClose_content rest suf h'
        rw [List.cons_append, scanClose.eq_def]
        simp [hb, hq, ih]

theorem fixGo_no_occurrence (fuel : Nat) (cs : List Char)
    (h : splitAtPat rcKey cs = none) : fixGo fuel cs = cs := by
  cases fuel with
  | zero => rfl
  | succ n =>
    rw [fixGo.eq_2]
    simp only [h]

theorem fixGo_canonical_step (fuel : Nat) (pre ws1 ws2 content suf : List Char)
    (hpre : ∀ i < pre.length, ¬ rcKey.isPrefixOf
      ((pre ++ (rcKey ++ (ws1 ++ (':' :: (ws2 ++ ('"' :: (content
        ++ ('"' :: suf)))))))).drop i))
    (hws1 : ∀ c ∈ ws1, isJsonWs c = true)
    (hws2 : ∀ c ∈ ws2, isJsonWs c = true)
    (hct : contentOk content = true) :
    fixGo (fuel + 1)
      (pre ++ (rcKey ++ (ws1 ++ (':' :: (ws2 ++ ('"' :: (content
        ++ ('"' :: suf))))))))
      = pre ++ rcCanon content ++ fixGo fuel suf := by
  have hrcColon : ∀ x ∈ rcKey, x ≠ ':' := by decide
  have h1 : splitAtPat rcKey
      (pre ++ (rcKey ++ (ws1 ++ (':' :: (ws2 ++ ('"' :: (content
        ++ ('"' :: suf))))))))
      = some (pre, rcKey ++ (ws1 ++ (':' :: (ws2 ++ ('"' :: (content
        ++ ('"' :: suf))))))) := by
    apply splitAtPat_first
    · exact hpre
    · exact isPrefixOf_self_append rcKey _
  have h2 : splitAtPat [':']
      (rcKey ++ (ws1 ++ (':' :: (ws2 ++ ('"' :: (content ++ ('"' :: suf)))))))
      = some (rcKey ++ ws1, ':' :: (ws2 ++ ('"' :: (content
        ++ ('"' :: suf))))) := by
    have h := splitAtPat_single ':' (rcKey ++ ws1)
      (ws2 ++ ('"' :: (content ++ ('"' :: suf))))
      (by
        intro x hx
        rcases List.mem_append.mp hx with hk | hw
        · exact hrcColon x hk
        · intro hxc
          subst hxc
          exact absurd (hws1 ':' hw) (by decide))
    rw [List.append_assoc] at h
    exact h
  have h3 : (ws2 ++ ('"' :: (content ++ ('"' :: suf)))).dropWhile isJsonWs
      = '"' :: (content ++ ('"' :: suf)) :=
    dropWhile_ws_prefix isJsonWs ws2 '"' (content ++ ('"' :: suf)) hws2
      (by decide)
  have h4 : scanClose (content ++ ('"' :: suf)) = (content, some suf) :=
    scanClose_content content suf hct
  rw [fixGo.eq_2]
  simp only [h1, h2, h3, h4, List.drop_succ_cons, List.drop_zero, if_true]

/-- C2 amended: when the substring `"robot_code"` occurs in the payload
only as the script-body key (no occurrence before it and none after its
string value), `_fix_robot_code_newlines` rewrites exactly that member into
the canonical `"robot_code": "..."` spelling — normalizing the whitespace
between key, colon and opening quote — with the literal control characters
of the quoted span re-escaped by `escCtl`, and leaves the payload before
the key and after the closing quote unchanged.  Consequently, when the
spacing is already canonical (nothing between key and colon, one space
after it), the repaired text is exactly the properly-escaped equivalent
payload, so direct parsing of it recovers exactly that payload's scenario
list. -/
theorem fix_newlines_canonicalizes_member
    (pre ws1 ws2 content suf : List Char)
    (hpre : ∀ i < pre.length, ¬ rcKey.isPrefixOf
      ((pre ++ (rcKey ++ (ws1 ++ (':' :: (ws2 ++ ('"' :: (content
        ++ ('"' :: suf)))))))).drop i))
    (hsuf : ∀ i < suf.length, ¬ rcKey.isPrefixOf (suf.drop i))
    (hws1 : ∀ c ∈ ws1, isJsonWs c = true)
    (hws2 : ∀ c ∈ ws2, isJsonWs c = true)
    (hct : contentOk content = true) :
    fixRobotCodeNewlines
      (pre ++ (rcKey ++ (ws1 ++ (':' :: (ws2 ++ ('"' :: (content
        ++ ('"' :: suf))))))))
      = pre ++ rcCanon content ++ suf ∧
    (ws1 = [] ∧ ws2 = [' '] →
      fixRobotCodeNewlines
        (pre ++ (rcKey ++ (ws1 ++ (':' :: (ws2 ++ ('"' :: (content
          ++ ('"' :: suf))))))))
        = pre ++ (rcKey ++ (ws1 ++ (':' :: (ws2 ++ ('"' :: (escCtl content
          ++ ('"' :: suf)))))))) := by
  have hnone : splitAtPat rcKey suf = none :=
    splitAtPat_none rcKey (by decide) suf
      (noPrefix_extend rcKey (by decide) suf hsuf)
  have hmain : fixRobotCodeNewlines
      (pre ++ (rcKey ++ (ws1 ++ (':' :: (ws2 ++ ('"' :: (content
        ++ ('"' :: suf))))))))
      = pre ++ rcCanon content ++ suf := by
    rw [fixRobotCodeNewlines]
    rw [fixGo_canonical_step _ pre ws1 ws2 content suf hpre hws1 hws2 hct]
    rw [fixGo_no_occurrence _ _ hnone]
  refine ⟨hmain, ?_⟩
  rintro ⟨rfl, rfl⟩
  rw [hmain]
  simp [rcCanon, List.append_assoc]

set_option maxRecDepth 200000 in
/-- C2 amended witness: a one-member payload with canonical spacing and a
literal newline in the body; the repair yields exactly the canonical
escaped member between the untouched brace delimiters. -/
theorem fix_newlines_canonicalizes_member_witness :
    fixRobotCodeNewlines
      ("\x7b".data ++ (rcKey ++ ([] ++ (':' :: ([' '] ++ ('"' ::
        ("a\nb".data ++ ('"' :: "\x7d".data))))))))
      = "\x7b".data ++ rcCanon "a\nb".data ++ "\x7d".data :=
  (fix_newlines_canonicalizes_member "\x7b".data [] [' '] "a\nb".data
    "\x7d".data (by decide) (by decide) (by decide) (by decide)
    (by decide)).1

theorem dropLit_self' (pat rest : List Char) :
    dropLit pat (pat ++ rest) = some rest := by
  simp [dropLit, isPrefixOf_self_append, List.drop_left]

theorem capToQuote_clean (v : List Char) (rest : List Char)
    (hv : ∀ c ∈ v, c ≠ '"') :
    capToQuote (v ++ '"' :: rest) = some (v, rest) := by
  induction v with
  | nil => simp [capToQuote]
  | cons x v' ih =>
    have hx : x ≠ '"' := hv x (by simp)
    simp [capToQuote, hx, ih (fun c hc => hv c (by simp [hc]))]

theorem isPrefixOf_key_quote (inner : List Char)
    (hin : ∀ c ∈ inner, c ≠ '"') :
    ∀ (v : List Char), (∀ c ∈ v, c ≠ '"') → ∀ (tail : List Char),
    ((inner ++ ['"']).isPrefixOf (v ++ '"' :: tail) = true ↔ inner = v) := by
  induction inner with
  | nil =>
    intro v hv tail
    cases v with
    | nil => simp [List.isPrefixOf]
    | cons x v' =>
      have hx : x ≠ '"' := hv x (by simp)
      simp [List.isPrefixOf, Ne.symm hx]
  | cons a inner' ih =>
    intro v hv tail
    have ha : a ≠ '"' := hin a (by simp)
    cases v with
    | nil => simp [List.isPrefixOf, ha]
    | cons x v' =>
      have step := ih (fun c hc => hin c (by simp [hc])) v'
        (fun c hc => hv c (by simp [hc])) tail
      simp [List.isPrefixOf, step]

theorem matchKeyQuote_fail_head (inner : List Char) (c : Char)
    (cs : List Char) (hc : c ≠ '"') :
    matchKeyQuote inner (c :: cs) = none := by
  have h : (('"' :: inner) ++ ['"']).isPrefixOf (c :: cs) = false := by
    simp [List.cons_append, List.isPrefixOf, Ne.symm hc]
  unfold matchKeyQuote dropLit
  rw [h]
  simp

theorem matchKeyQuote_fail_second (k0 : Char) (inner' : List Char) (c : Char)
    (cs : List Char) (hc : c ≠ k0) :
    matchKeyQuote (k0 :: inner') ('"' :: c :: cs) = none := by
  have h : (('"' :: (k0 :: inner')) ++ ['"']).isPrefixOf ('"' :: c :: cs)
      = false := by
    simp [List.cons_append, List.isPrefixOf, Ne.symm hc]
  unfold matchKeyQuote dropLit
  rw [h]
  simp

theorem matchKeyQuote_fail_value (inner v : List Char) (c : Char)
    (rest : List Char) (hin : ∀ x ∈ inner, x ≠ '"')
    (hv : ∀ x ∈ v, x ≠ '"') (hws : isRegexWs c = false) (hc : c ≠ ':') :
    matchKeyQuote inner ('"' :: (v ++ '"' :: c :: rest)) = none := by
  by_cases hiv : inner = v
  · subst hiv
    have h1 : dropLit (('"' :: inner) ++ ['"'])
        ('"' :: (inner ++ '"' :: c :: rest)) = some (c :: rest) := by
      have h2 : (('"' :: inner) ++ ['"']) ++ (c :: rest)
          = '"' :: (inner ++ '"' :: c :: rest) := by
        simp [List.cons_append, List.append_assoc]
      rw [← h2]
      exact dropLit_self' _ _
    have h3 : (c :: rest).dropWhile isRegexWs = c :: rest :=
      List.dropWhile_cons_of_neg (by simp [hws])
    have h4 : dropLit [':'] (c :: rest) = none := by
      unfold dropLit
      have : ([':'] : List Char).isPrefixOf (c :: rest) = false := by
        simp [List.isPrefixOf, Ne.symm hc]
      rw [this]
      simp
    unfold matchKeyQuote
    rw [h1]
    simp [h3, h4]
  · have h1 : (('"' :: inner) ++ ['"']).isPrefixOf
        ('"' :: (v ++ '"' :: c :: rest)) = false := by
      have step := isPrefixOf_key_quote inner hin v hv (c :: rest)
      simp only [List.cons_append, List.isPrefixOf]
      have hfalse : (inner ++ ['"']).isPrefixOf (v ++ '"' :: c :: rest)
          = false := by
        cases hb : (inner ++ ['"']).isPrefixOf (v ++ '"' :: c :: rest)
        · rfl
        · exact absurd (step.mp hb) hiv
      simp [hfalse]
    unfold matchKeyQuote dropLit
    rw [h1]
    simp

theorem matchKeyQuote_succ (key rest : List Char) :
    matchKeyQuote key (('"' :: key) ++ ('"' :: ':' :: ' ' :: '"' :: rest))
      = some rest := by
  have h1 : dropLit (('"' :: key) ++ ['"'])
      (('"' :: key) ++ ('"' :: ':' :: ' ' :: '"' :: rest))
      = some (':' :: ' ' :: '"' :: rest) := by
    have h2 : (('"' :: key) ++ ['"']) ++ (':' :: ' ' :: '"' :: rest)
        = ('"' :: key) ++ ('"' :: ':' :: ' ' :: '"' :: rest) := by
      simp [List.cons_append, List.append_assoc]
    rw [← h2]
    exact dropLit_self' _ _
  have h3 : ∀ X : List Char, dropLit [':'] (':' :: X) = some X :=
    fun X => dropLit_self' [':'] X
  have h4 : ∀ X : List Char, dropLit ['"'] ('"' :: X) = some X :=
    fun X => dropLit_self' ['"'] X
  have d1 : (':' :: ' ' :: '"' :: rest).dropWhile isRegexWs
      = ':' :: ' ' :: '"' :: rest :=
    List.dropWhile_cons_of_neg (by decide)
  have d2 : (' ' :: '"' :: rest).dropWhile isRegexWs
      = ('"' :: rest).dropWhile isRegexWs :=
    List.dropWhile_cons_of_pos (by decide)
  have d3 : ('"' :: rest).dropWhile isRegexWs = '"' :: rest :=
    List.dropWhile_cons_of_neg (by decide)
  unfold matchKeyQuote
  rw [h1]
  simp [d1, h3, d2, d3, h4]

theorem matchKeyQuote_name (rest : List Char) :
    matchKeyQuote "name".data (nameKeyTxt ++ rest) = some rest := by
  rw [show nameKeyTxt ++ rest
      = ('"' :: "name".data) ++ ('"' :: ':' :: ' ' :: '"' :: rest) from rfl]
  exact matchKeyQuote_succ "name".data rest

theorem matchKeyQuote_tid (rest : List Char) :
    matchKeyQuote "test_id".data
      (('"' :: "test_id".data) ++ ('"' :: ':' :: ' ' :: '"' :: rest))
      = some rest :=
  matchKeyQuote_succ "test_id".data rest

theorem matchKeyQuote_descr (rest : List Char) :
    matchKeyQuote "description".data
      (('"' :: "description".data) ++ ('"' :: ':' :: ' ' :: '"' :: rest))
      = some rest :=
  matchKeyQuote_succ "description".data rest

theorem matchKeyQuote_robot (rest : List Char) :
    matchKeyQuote "robot_code".data
      (('"' :: "robot_code".data) ++ ('"' :: ':' :: ' ' :: '"' :: rest))
      = some rest :=
  matchKeyQuote_succ "robot_code".data rest

theorem matchTriple_none (cs : List Char)
    (h : matchKeyQuote "name".data cs = none) : matchTriple cs = none := by
  unfold matchTriple
  rw [h]
  simp

theorem robotAt_none (cs : List Char)
    (h : matchKeyQuote "robot_code".data cs = none) : robotAt cs = none := by
  unfold robotAt
  rw [h]
  simp

theorem matchKeyQuote_fail_inner (key : List Char) (v : List Char)
    (hv : ∀ x ∈ v, x ≠ '"') :
    ∀ (X : List Char) (k : Nat), k < v.length →
    matchKeyQuote key (v.drop k ++ X) = none := by
  induction v with
  | nil => intro X k hk; simp at hk
  | cons c rest ih =>
    intro X k hk
    match k with
    | 0 =>
      simp only [List.drop_zero, List.cons_append]
      exact matchKeyQuote_fail_head key c _ (hv c (by simp))
    | k + 1 =>
      have hk' : k < rest.length := by
        simp [List.length_cons] at hk
        omega
      simpa using ih (fun x hx => hv x (by simp [hx])) X k hk'

theorem keyFailLocal_sound (k0 : Char) (inner' : List Char) :
    ∀ (S : List Char), keyFailLocal k0 S = true →
    ∀ (X : List Char) (k : Nat), k < S.length →
    matchKeyQuote (k0 :: inner') (S.drop k ++ X) = none := by
  intro S
  induction S with
  | nil => intro _ X k hk; simp at hk
  | cons c rest ih =>
    intro hS X k hk
    rw [keyFailLocal.eq_def] at hS
    simp only [] at hS
    rw [Bool.and_eq_true] at hS
    match k with
    | 0 =>
      simp only [List.drop_zero, List.cons_append]
      by_cases hc : c = '"'
      · subst hc
        rw [if_pos rfl] at hS
        cases rest with
        | nil => exact absurd hS.1 (by simp)
        | cons d rest' =>
          have hd : d ≠ k0 := by
            have := hS.1
            simpa using this
          simp only [List.cons_append]
          exact matchKeyQuote_fail_second k0 inner' d _ hd
      · exact matchKeyQuote_fail_head _ c _ hc
    | k + 1 =>
      have hk' : k < rest.length := by
        simp [List.length_cons] at hk
        omega
      simpa using ih hS.2 X k hk'

theorem ftg_nil (fuel pos : Nat) : findTriplesGo fuel pos [] = [] := by
  cases fuel with
  | zero => rfl
  | succ f =>
    have h : matchTriple [] = none := by decide
    simp [findTriplesGo, h]

theorem ftg_step (fuel pos : Nat) (c : Char) (cs : List Char)
    (h : matchTriple (c :: cs) = none) :
    findTriplesGo (fuel + 1) pos (c :: cs)
      = findTriplesGo fuel (pos + 1) cs := by
  simp [findTriplesGo, h]

theorem ftg_match (fuel pos : Nat) (cs : List Char)
    (caps : String × String × String) (rest : List Char)
    (h : matchTriple cs = some (caps, rest)) :
    findTriplesGo (fuel + 1) pos cs
      = (pos, caps, pos + (cs.length - rest.length))
        :: findTriplesGo fuel (pos + (cs.length - rest.length)) rest := by
  simp [findTriplesGo, h]

theorem ftg_skip (S : List Char) :
    ∀ (X : List Char),
    (∀ k, k < S.length → matchTriple (S.drop k ++ X) = none) →
    ∀ (fuel pos : Nat),
    findTriplesGo (S.length + fuel) pos (S ++ X)
      = findTriplesGo fuel (pos + S.length) X := by
  induction S with
  | nil => intro X _ fuel pos; simp
  | cons c rest ih =>
    intro X hS fuel pos
    have h0 : matchTriple (c :: (rest ++ X)) = none := by
      simpa using hS 0 (by simp)
    have c1 : (c :: rest).length + fuel = (rest.length + fuel) + 1 := by
      simp [List.length_cons]; omega
    rw [List.cons_append, c1, ftg_step _ _ _ _ h0]
    have hS' : ∀ k, k < rest.length → matchTriple (rest.drop k ++ X) = none :=
      fun k hk => by simpa using hS (k + 1) (by simp [List.length_cons]; omega)
    rw [ih X hS' fuel (pos + 1)]
    congr 1
    simp [List.length_cons]; omega

theorem lazyNB_all_none {α : Type} (k : List Char → Option α) :
    ∀ (cs : List Char), (∀ n, k (cs.drop n) = none) → lazyNB k cs = none := by
  intro cs
  induction cs with
  | nil => intro h; simpa [lazyNB] using h 0
  | cons c rest ih =>
    intro h
    have h0 : k (c :: rest) = none := by simpa using h 0
    have ihr : lazyNB k rest = none :=
      ih (fun n => by simpa using h (n + 1))
    simp [lazyNB, h0, ihr]

theorem lazyNB_cons_none {α : Type} (k : List Char → Option α) (c : Char)
    (rest : List Char) (hk : k (c :: rest) = none) (hc : c ≠ '\x7d') :
    lazyNB k (c :: rest) = lazyNB k rest := by
  simp [lazyNB, hk, hc]

theorem lazyNB_found {α : Type} (k : List Char → Option α) (cs : List Char)
    (r : α) (hk : k cs = some r) : lazyNB k cs = some r := by
  cases cs with
  | nil => simpa [lazyNB] using hk
  | cons c rest => simp [lazyNB, hk]

theorem robotLookahead_brace (Z : List Char) :
    robotLookahead ('\x7d' :: Z) = true := by
  unfold robotLookahead
  rw [List.dropWhile_cons_of_neg (by decide)]
  rfl

theorem lazyAnyCap_clean (v : List Char) (rest : List Char)
    (hv : ∀ x ∈ v, x ≠ '"') (hla : robotLookahead rest = true) :
    lazyAnyCap (v ++ '"' :: rest) = some v := by
  induction v with
  | nil => simp [lazyAnyCap, hla]
  | cons x v' ih =>
    have hx : x ≠ '"' := hv x (by simp)
    simp [lazyAnyCap, hx, ih (fun c hc => hv c (by simp [hc]))]

theorem robotSearch_cons_none (c : Char) (cs : List Char)
    (h : robotAt (c :: cs) = none) :
    robotSearch (c :: cs) = robotSearch cs := by
  simp [robotSearch, h]

theorem robotSearch_found (c : Char) (cs : List Char) (r : List Char)
    (h : robotAt (c :: cs) = some r) : robotSearch (c :: cs) = some r := by
  simp [robotSearch, h]

theorem robotSearch_skip (S : List Char) :
    ∀ (X : List Char),
    (∀ k, k < S.length → robotAt (S.drop k ++ X) = none) →
    robotSearch (S ++ X) = robotSearch X := by
  induction S with
  | nil => intro X _; simp
  | cons c rest ih =>
    intro X hS
    have h0 : robotAt (c :: (rest ++ X)) = none := by
      simpa using hS 0 (by simp)
    rw [List.cons_append, robotSearch_cons_none _ _ h0]
    exact ih X (fun k hk => by
      simpa using hS (k + 1) (by simp [List.length_cons]; omega))

theorem ftg_skip_block (pre v : List Char) (c : Char) (rest : List Char)
    (hpre : keyFailLocal 'n' pre = true) (hv : ∀ x ∈ v, x ≠ '"')
    (hws : isRegexWs c = false) (hc : c ≠ ':') :
    ∀ (f pos : Nat),
    findTriplesGo ((pre.length + (1 + v.length)) + f) pos
      (pre ++ ('"' :: (v ++ ('"' :: (c :: rest)))))
      = findTriplesGo f (pos + (pre.length + (1 + v.length)))
          ('"' :: (c :: rest)) := by
  intro f pos
  have hfail : ∀ k, k < pre.length →
      matchTriple (pre.drop k ++ ('"' :: (v ++ ('"' :: (c :: rest))))) = none :=
    fun k hk => matchTriple_none _
      (keyFailLocal_sound 'n' "ame".data pre hpre _ k hk)
  have harr : (pre.length + (1 + v.length)) + f
      = pre.length + ((1 + v.length) + f) := by omega
  rw [harr, ftg_skip pre _ hfail ((1 + v.length) + f) pos]
  have hstep : matchTriple ('"' :: (v ++ ('"' :: (c :: rest)))) = none :=
    matchTriple_none _
      (matchKeyQuote_fail_value "name".data v c rest (by decide) hv hws hc)
  have harr2 : (1 + v.length) + f = (v.length + f) + 1 := by omega
  rw [harr2, ftg_step (v.length + f) _ '"' _ hstep]
  have hinner : ∀ k, k < v.length →
      matchTriple (v.drop k ++ ('"' :: (c :: rest))) = none :=
    fun k hk => matchTriple_none _
      (matchKeyQuote_fail_inner "name".data v hv _ k hk)
  rw [ftg_skip v _ hinner f _]
  congr 1
  omega

theorem robotSearch_skip_block (pre v : List Char) (c : Char)
    (rest : List Char) (hpre : keyFailLocal 'r' pre = true)
    (hv : ∀ x ∈ v, x ≠ '"') (hws : isRegexWs c = false) (hc : c ≠ ':') :
    robotSearch (pre ++ ('"' :: (v ++ ('"' :: (c :: rest)))))
      = robotSearch ('"' :: (c :: rest)) := by
  rw [robotSearch_skip pre _ (fun k hk => robotAt_none _
    (keyFailLocal_sound 'r' "obot_code".data pre hpre _ k hk))]
  rw [robotSearch_cons_none '"' _ (robotAt_none _
    (matchKeyQuote_fail_value "robot_code".data v c rest (by decide) hv hws hc))]
  rw [robotSearch_skip v _ (fun k hk => robotAt_none _
    (matchKeyQuote_fail_inner "robot_code".data v hv _ k hk))]

theorem lazyNB_keybind_cons_none {β : Type} (key : List Char)
    (G : List Char → Option β) (c : Char) (rest : List Char)
    (hfail : matchKeyQuote key (c :: rest) = none) (hc : c ≠ '\x7d') :
    lazyNB (fun cs => (matchKeyQuote key cs).bind G) (c :: rest)
      = lazyNB (fun cs => (matchKeyQuote key cs).bind G) rest :=
  lazyNB_cons_none _ c rest (by rw [hfail]; rfl) hc

theorem lazyNB_keybind_found {β : Type} (key : List Char)
    (G : List Char → Option β) (cs : List Char) (r : β)
    (h : (matchKeyQuote key cs).bind G = some r) :
    lazyNB (fun cs2 => (matchKeyQuote key cs2).bind G) cs = some r :=
  lazyNB_found _ cs r h

theorem lazyNB_keybind_none {β : Type} (key : List Char)
    (G : List Char → Option β) (cs : List Char)
    (h : ∀ n, (matchKeyQuote key (cs.drop n)).bind G = none) :
    lazyNB (fun cs2 => (matchKeyQuote key cs2).bind G) cs = none :=
  lazyNB_all_none _ cs h

theorem matchTriple_succ (n i d rest : List Char)
    (hn : ∀ c ∈ n, c ≠ '"') (hi : ∀ c ∈ i, c ≠ '"') (hd : ∀ c ∈ d, c ≠ '"')
    (hne : n ≠ []) (hie : i ≠ []) :
    matchTriple (nameKeyTxt ++ (n ++ (tidKeyTxt ++ (i ++ (descKeyTxt ++
      (d ++ ('"' :: rest)))))))
      = some ((String.mk n, String.mk i, String.mk d), rest) := by
  have hnE : n.isEmpty = false := by
    cases n with
    | nil => exact absurd rfl hne
    | cons _ _ => rfl
  have hiE : i.isEmpty = false := by
    cases i with
    | nil => exact absurd rfl hie
    | cons _ _ => rfl
  unfold matchTriple
  rw [matchKeyQuote_name]
  rw [show tidKeyTxt ++ (i ++ (descKeyTxt ++ (d ++ ('"' :: rest))))
      = '"' :: (tidMidTxt ++ (i ++ (descKeyTxt ++ (d ++ ('"' :: rest)))))
      from rfl]
  simp only [Option.some_bind]
  rw [capToQuote_clean n _ hn]
  simp only [Option.some_bind, hnE, Bool.false_eq_true, if_false]
  rw [show tidMidTxt ++ (i ++ (descKeyTxt ++ (d ++ ('"' :: rest))))
      = ',' :: (' ' :: (('"' :: "test_id".data)
        ++ ('"' :: ':' :: ' ' :: '"' ::
          (i ++ (descKeyTxt ++ (d ++ ('"' :: rest))))))) from rfl]
  rw [lazyNB_keybind_cons_none "test_id".data _ ',' _
    (matchKeyQuote_fail_head _ ',' _ (by decide)) (by decide)]
  rw [lazyNB_keybind_cons_none "test_id".data _ ' ' _
    (matchKeyQuote_fail_head _ ' ' _ (by decide)) (by decide)]
  apply lazyNB_keybind_found
  rw [matchKeyQuote_tid]
  rw [show descKeyTxt ++ (d ++ ('"' :: rest))
      = '"' :: (descMidTxt ++ (d ++ ('"' :: rest))) from rfl]
  simp only [Option.some_bind]
  rw [capToQuote_clean i _ hi]
  simp only [Option.some_bind, hiE, Bool.false_eq_true, if_false]
  rw [show descMidTxt ++ (d ++ ('"' :: rest))
      = ',' :: (' ' :: (('"' :: "description".data)
        ++ ('"' :: ':' :: ' ' :: '"' :: (d ++ ('"' :: rest))))) from rfl]
  rw [lazyNB_keybind_cons_none "description".data _ ',' _
    (matchKeyQuote_fail_head _ ',' _ (by decide)) (by decide)]
  rw [lazyNB_keybind_cons_none "description".data _ ' ' _
    (matchKeyQuote_fail_head _ ' ' _ (by decide)) (by decide)]
  apply lazyNB_keybind_found
  rw [matchKeyQuote_descr]
  simp only [Option.some_bind]
  rw [capToQuote_clean d _ hd]
  rfl

theorem suffix_forall_append (P : List Char → Prop) (A B : List Char)
    (hA : ∀ k, k < A.length → P (A.drop k ++ B)) (hB : ∀ n, P (B.drop n)) :
    ∀ n, P ((A ++ B).drop n) := by
  intro n
  rcases Nat.lt_or_ge n A.length with h | h
  · rw [List.drop_append_eq_append_drop]
    rw [show n - A.length = 0 from by omega, List.drop_zero]
    exact hA n h
  · rw [List.drop_append_eq_append_drop, List.drop_eq_nil_of_le h,
      List.nil_append]
    exact hB (n - A.length)

theorem keybind_suffix_none {β : Type} (key : List Char)
    (G : List Char → Option β) (A B : List Char)
    (hA : ∀ k, k < A.length →
      (matchKeyQuote key (A.drop k ++ B)).bind G = none)
    (hB : ∀ n, (matchKeyQuote key (B.drop n)).bind G = none) :
    ∀ n, (matchKeyQuote key ((A ++ B).drop n)).bind G = none := by
  intro n
  rcases Nat.lt_or_ge n A.length with h | h
  · rw [List.drop_append_eq_append_drop,
      show n - A.length = 0 from by omega, List.drop_zero]
    exact hA n h
  · rw [List.drop_append_eq_append_drop, List.drop_eq_nil_of_le h,
      List.nil_append]
    exact hB (n - A.length)

theorem mkq_tid_second (c : Char) (cs : List Char) (hc : c ≠ 't') :
    matchKeyQuote "test_id".data ('"' :: c :: cs) = none :=
  matchKeyQuote_fail_second 't' "est_id".data c cs hc

theorem matchTriple_early_cut (n2 i2 : List Char)
    (hn2 : ∀ c ∈ n2, c ≠ '"') (hi2 : ∀ c ∈ i2, c ≠ '"')
    (hn2e : n2 ≠ []) (hi2e : i2 ≠ []) :
    matchTriple (nameKeyTxt ++ (n2 ++ (tidKeyTxt ++ (i2 ++
      ('"' :: cutEarlyTail))))) = none := by
  have hnE : n2.isEmpty = false := by
    cases n2 with
    | nil => exact absurd rfl hn2e
    | cons _ _ => rfl
  have hiE : i2.isEmpty = false := by
    cases i2 with
    | nil => exact absurd rfl hi2e
    | cons _ _ => rfl
  unfold matchTriple
  rw [matchKeyQuote_name]
  rw [show tidKeyTxt ++ (i2 ++ ('"' :: cutEarlyTail))
      = '"' :: (tidMidTxt ++ (i2 ++ ('"' :: cutEarlyTail))) from rfl]
  simp only [Option.some_bind]
  rw [capToQuote_clean n2 _ hn2]
  simp only [Option.some_bind, hnE, Bool.false_eq_true, if_false]
  apply lazyNB_keybind_none
  apply keybind_suffix_none
  · intro k hk
    rw [show tidMidTxt.length = 14 from rfl] at hk
    interval_cases k
    · rw [show List.drop 0 tidMidTxt ++ (i2 ++ '"' :: cutEarlyTail)
          = ',' :: (List.drop 1 tidMidTxt ++ (i2 ++ '"' :: cutEarlyTail))
          from rfl,
        matchKeyQuote_fail_head "test_id".data ',' _ (by decide)]
      rfl
    · rw [show List.drop 1 tidMidTxt ++ (i2 ++ '"' :: cutEarlyTail)
          = ' ' :: (List.drop 2 tidMidTxt ++ (i2 ++ '"' :: cutEarlyTail))
          from rfl,
        matchKeyQuote_fail_head "test_id".data ' ' _ (by decide)]
      rfl
    · have hmk : matchKeyQuote "test_id".data
          (List.drop 2 tidMidTxt ++ (i2 ++ '"' :: cutEarlyTail))
          = some (i2 ++ ('"' :: cutEarlyTail)) := by
        rw [show List.drop 2 tidMidTxt ++ (i2 ++ '"' :: cutEarlyTail)
            = ('"' :: "test_id".data) ++ ('"' :: ':' :: ' ' :: '"' ::
              (i2 ++ ('"' :: cutEarlyTail))) from rfl]
        exact matchKeyQuote_tid _
      rw [hmk]
      simp only [Option.some_bind]
      rw [capToQuote_clean i2 _ hi2]
      simp only [Option.some_bind, hiE, Bool.false_eq_true, if_false]
      apply lazyNB_keybind_none
      intro m
      have hdk : matchKeyQuote "description".data (cutEarlyTail.drop m)
          = none := by
        rcases Nat.lt_or_ge m 9 with hm | hm
        · interval_cases m <;> decide
        · rw [List.drop_eq_nil_of_le
            (by rw [show cutEarlyTail.length = 9 from rfl]; omega)]
          decide
      rw [hdk]; rfl
    · rw [show List.drop 3 tidMidTxt ++ (i2 ++ '"' :: cutEarlyTail)
          = 't' :: (List.drop 4 tidMidTxt ++ (i2 ++ '"' :: cutEarlyTail))
          from rfl,
        matchKeyQuote_fail_head "test_id".data 't' _ (by decide)]
      rfl
    · rw [show List.drop 4 tidMidTxt ++ (i2 ++ '"' :: cutEarlyTail)
          = 'e' :: (List.drop 5 tidMidTxt ++ (i2 ++ '"' :: cutEarlyTail))
          from rfl,
        matchKeyQuote_fail_head "test_id".data 'e' _ (by decide)]
      rfl
    · rw [show List.drop 5 tidMidTxt ++ (i2 ++ '"' :: cutEarlyTail)
          = 's' :: (List.drop 6 tidMidTxt ++ (i2 ++ '"' :: cutEarlyTail))
          from rfl,
        matchKeyQuote_fail_head "test_id".data 's' _ (by decide)]
      rfl
    · rw [show List.drop 6 tidMidTxt ++ (i2 ++ '"' :: cutEarlyTail)
          = 't' :: (List.drop 7 tidMidTxt ++ (i2 ++ '"' :: cutEarlyTail))
          from rfl,
        matchKeyQuote_fail_head "test_id".data 't' _ (by decide)]
      rfl
    · rw [show List.drop 7 tidMidTxt ++ (i2 ++ '"' :: cutEarlyTail)
          = '_' :: (List.drop 8 tidMidTxt ++ (i2 ++ '"' :: cutEarlyTail))
          from rfl,
        matchKeyQuote_fail_head "test_id".data '_' _ (by decide)]
      rfl
    · rw [show List.drop 8 tidMidTxt ++ (i2 ++ '"' :: cutEarlyTail)
          = 'i' :: (List.drop 9 tidMidTxt ++ (i2 ++ '"' :: cutEarlyTail))
          from rfl,
        matchKeyQuote_fail_head "test_id".data 'i' _ (by decide)]
      rfl
    · rw [show List.drop 9 tidMidTxt ++ (i2 ++ '"' :: cutEarlyTail)
          = 'd' :: (List.drop 10 tidMidTxt ++ (i2 ++ '"' :: cutEarlyTail))
          from rfl,
        matchKeyQuote_fail_head "test_id".data 'd' _ (by decide)]
      rfl
    · rw [show List.drop 10 tidMidTxt ++ (i2 ++ '"' :: cutEarlyTail)
          = '"' :: (':' :: (List.drop 12 tidMidTxt
            ++ (i2 ++ '"' :: cutEarlyTail))) from rfl,
        mkq_tid_second ':' _ (by decide)]
      rfl
    · rw [show List.drop 11 tidMidTxt ++ (i2 ++ '"' :: cutEarlyTail)
          = ':' :: (List.drop 12 tidMidTxt ++ (i2 ++ '"' :: cutEarlyTail))
          from rfl,
        matchKeyQuote_fail_head "test_id".data ':' _ (by decide)]
      rfl
    · rw [show List.drop 12 tidMidTxt ++ (i2 ++ '"' :: cutEarlyTail)
          = ' ' :: (List.drop 13 tidMidTxt ++ (i2 ++ '"' :: cutEarlyTail))
          from rfl,
        matchKeyQuote_fail_head "test_id".data ' ' _ (by decide)]
      rfl
    · rw [show List.drop 13 tidMidTxt ++ (i2 ++ '"' :: cutEarlyTail)
          = '"' :: (i2 ++ '"' :: ',' :: (' ' :: ('"' :: ('d' :: ('e' ::
            ('s' :: ('c' :: ('r' :: ('i' :: []))))))))) from rfl,
        matchKeyQuote_fail_value "test_id".data i2 ',' _
          (by decide) hi2 (by decide) (by decide)]
      rfl
  · apply keybind_suffix_none
    · intro k hk
      rw [matchKeyQuote_fail_inner "test_id".data i2 hi2 _ k hk]; rfl
    · intro m
      match m with
      | 0 =>
        rw [show List.drop 0 ('"' :: cutEarlyTail)
            = '"' :: (',' :: List.drop 1 cutEarlyTail) from rfl,
          mkq_tid_second ',' _ (by decide)]
        rfl
      | m + 1 =>
        have hmk : matchKeyQuote "test_id".data
            (List.drop (m + 1) ('"' :: cutEarlyTail)) = none := by
          rw [List.drop_succ_cons]
          rcases Nat.lt_or_ge m 9 with hm | hm
          · interval_cases m <;> decide
          · rw [List.drop_eq_nil_of_le
              (by rw [show cutEarlyTail.length = 9 from rfl]; omega)]
            decide
        rw [hmk]; rfl

theorem ftg_all_fail (S : List Char)
    (h : ∀ k, k < S.length → matchTriple (S.drop k) = none) :
    ∀ (fuel pos : Nat), S.length ≤ fuel → findTriplesGo fuel pos S = [] := by
  induction S with
  | nil => intro fuel pos _; exact ftg_nil fuel pos
  | cons c rest ih =>
    intro fuel pos hf
    match fuel with
    | 0 => simp [List.length_cons] at hf
    | f + 1 =>
      rw [ftg_step f pos c rest (by simpa using h 0 (by simp))]
      exact ih (fun k hk => by
          simpa using h (k + 1) (by simp [List.length_cons]; omega))
        f (pos + 1) (by simp [List.length_cons] at hf; omega)

theorem ftg_truncLate (n1 i1 d1 b1 n2 i2 d2 : List Char)
    (hn1 : ∀ c ∈ n1, c ≠ '"') (hi1 : ∀ c ∈ i1, c ≠ '"')
    (hd1 : ∀ c ∈ d1, c ≠ '"') (hb1 : ∀ c ∈ b1, c ≠ '"')
    (hn2 : ∀ c ∈ n2, c ≠ '"') (hi2 : ∀ c ∈ i2, c ≠ '"')
    (hd2 : ∀ c ∈ d2, c ≠ '"')
    (hn1e : n1 ≠ []) (hi1e : i1 ≠ []) (hn2e : n2 ≠ []) (hi2e : i2 ≠ []) :
    findTriplesGo ((truncLate n1 i1 d1 b1 n2 i2 d2).length + 1) 0
      (truncLate n1 i1 d1 b1 n2 i2 d2)
      = [(21, (String.mk n1, String.mk i1, String.mk d1),
          65 + (n1.length + (i1.length + d1.length))),
         (87 + (n1.length + (i1.length + (d1.length + b1.length))),
          (String.mk n2, String.mk i2, String.mk d2),
          131 + (n1.length + (i1.length + (d1.length + (b1.length + (n2.length + (i2.length + d2.length)))))))] := by
  have L1 : tsHead.length = 21 := rfl
  have L2 : nameKeyTxt.length = 9 := rfl
  have L3 : tidKeyTxt.length = 15 := rfl
  have L4 : descKeyTxt.length = 19 := rfl
  have L5 : rcMidPre.length = 16 := rfl
  have L7 : cutLateTail.length = 10 := rfl
  have L8 : ("\"\x7d, \x7b".data).length = 5 := rfl
  unfold truncLate
  rw [show sepBrace ++ (nameKeyTxt ++ (n2 ++ (tidKeyTxt ++ (i2 ++ (descKeyTxt ++ (d2 ++ ('"' :: cutLateTail)))))))
      = '\x7d' :: (',' :: (' ' :: ('\x7b' :: (nameKeyTxt ++ (n2 ++ (tidKeyTxt ++ (i2 ++ (descKeyTxt ++ (d2 ++ ('"' :: cutLateTail)))))))))) from rfl]
  have hf1 : (tsHead ++ (nameKeyTxt ++ (n1 ++ (tidKeyTxt ++ (i1 ++ (descKeyTxt ++ (d1 ++ ('"' :: (rcMidPre ++ ('"' :: (b1 ++ ('"' :: ('\x7d' :: (',' :: (' ' :: ('\x7b' :: (nameKeyTxt ++ (n2 ++ (tidKeyTxt ++ (i2 ++ (descKeyTxt ++ (d2 ++ ('"' :: cutLateTail))))))))))))))))))))))).length + 1 = tsHead.length + ((nameKeyTxt ++ (n1 ++ (tidKeyTxt ++ (i1 ++ (descKeyTxt ++ (d1 ++ ('"' :: (rcMidPre ++ ('"' :: (b1 ++ ('"' :: ('\x7d' :: (',' :: (' ' :: ('\x7b' :: (nameKeyTxt ++ (n2 ++ (tidKeyTxt ++ (i2 ++ (descKeyTxt ++ (d2 ++ ('"' :: cutLateTail)))))))))))))))))))))).length + 1) := by
    simp [List.length_append, List.length_cons]
    omega
  rw [hf1]
  have hsk1 : ∀ k, k < tsHead.length →
      matchTriple (tsHead.drop k ++ (nameKeyTxt ++ (n1 ++ (tidKeyTxt ++ (i1 ++ (descKeyTxt ++ (d1 ++ ('"' :: (rcMidPre ++ ('"' :: (b1 ++ ('"' :: ('\x7d' :: (',' :: (' ' :: ('\x7b' :: (nameKeyTxt ++ (n2 ++ (tidKeyTxt ++ (i2 ++ (descKeyTxt ++ (d2 ++ ('"' :: cutLateTail))))))))))))))))))))))) = none :=
    fun k hk => matchTriple_none _
      (keyFailLocal_sound 'n' "ame".data tsHead (by decide) (nameKeyTxt ++ (n1 ++ (tidKeyTxt ++ (i1 ++ (descKeyTxt ++ (d1 ++ ('"' :: (rcMidPre ++ ('"' :: (b1 ++ ('"' :: ('\x7d' :: (',' :: (' ' :: ('\x7b' :: (nameKeyTxt ++ (n2 ++ (tidKeyTxt ++ (i2 ++ (descKeyTxt ++ (d2 ++ ('"' :: cutLateTail)))))))))))))))))))))) k hk)
  rw [ftg_skip tsHead (nameKeyTxt ++ (n1 ++ (tidKeyTxt ++ (i1 ++ (descKeyTxt ++ (d1 ++ ('"' :: (rcMidPre ++ ('"' :: (b1 ++ ('"' :: ('\x7d' :: (',' :: (' ' :: ('\x7b' :: (nameKeyTxt ++ (n2 ++ (tidKeyTxt ++ (i2 ++ (descKeyTxt ++ (d2 ++ ('"' :: cutLateTail)))))))))))))))))))))) hsk1 ((nameKeyTxt ++ (n1 ++ (tidKeyTxt ++ (i1 ++ (descKeyTxt ++ (d1 ++ ('"' :: (rcMidPre ++ ('"' :: (b1 ++ ('"' :: ('\x7d' :: (',' :: (' ' :: ('\x7b' :: (nameKeyTxt ++ (n2 ++ (tidKeyTxt ++ (i2 ++ (descKeyTxt ++ (d2 ++ ('"' :: cutLateTail)))))))))))))))))))))).length + 1) 0]
  rw [show (0 : Nat) + tsHead.length = 21 from rfl]
  have hm1 : matchTriple (nameKeyTxt ++ (n1 ++ (tidKeyTxt ++ (i1 ++ (descKeyTxt ++ (d1 ++ ('"' :: (rcMidPre ++ ('"' :: (b1 ++ ('"' :: ('\x7d' :: (',' :: (' ' :: ('\x7b' :: (nameKeyTxt ++ (n2 ++ (tidKeyTxt ++ (i2 ++ (descKeyTxt ++ (d2 ++ ('"' :: cutLateTail))))))))))))))))))))))
      = some ((String.mk n1, String.mk i1, String.mk d1), rcMidPre ++ ('"' :: (b1 ++ ('"' :: ('\x7d' :: (',' :: (' ' :: ('\x7b' :: (nameKeyTxt ++ (n2 ++ (tidKeyTxt ++ (i2 ++ (descKeyTxt ++ (d2 ++ ('"' :: cutLateTail))))))))))))))) :=
    matchTriple_succ n1 i1 d1 (rcMidPre ++ ('"' :: (b1 ++ ('"' :: ('\x7d' :: (',' :: (' ' :: ('\x7b' :: (nameKeyTxt ++ (n2 ++ (tidKeyTxt ++ (i2 ++ (descKeyTxt ++ (d2 ++ ('"' :: cutLateTail))))))))))))))) hn1 hi1 hd1 hn1e hi1e
  rw [ftg_match ((nameKeyTxt ++ (n1 ++ (tidKeyTxt ++ (i1 ++ (descKeyTxt ++ (d1 ++ ('"' :: (rcMidPre ++ ('"' :: (b1 ++ ('"' :: ('\x7d' :: (',' :: (' ' :: ('\x7b' :: (nameKeyTxt ++ (n2 ++ (tidKeyTxt ++ (i2 ++ (descKeyTxt ++ (d2 ++ ('"' :: cutLateTail)))))))))))))))))))))).length) 21 (nameKeyTxt ++ (n1 ++ (tidKeyTxt ++ (i1 ++ (descKeyTxt ++ (d1 ++ ('"' :: (rcMidPre ++ ('"' :: (b1 ++ ('"' :: ('\x7d' :: (',' :: (' ' :: ('\x7b' :: (nameKeyTxt ++ (n2 ++ (tidKeyTxt ++ (i2 ++ (descKeyTxt ++ (d2 ++ ('"' :: cutLateTail))))))))))))))))))))))
    (String.mk n1, String.mk i1, String.mk d1) (rcMidPre ++ ('"' :: (b1 ++ ('"' :: ('\x7d' :: (',' :: (' ' :: ('\x7b' :: (nameKeyTxt ++ (n2 ++ (tidKeyTxt ++ (i2 ++ (descKeyTxt ++ (d2 ++ ('"' :: cutLateTail))))))))))))))) hm1]
  have hl1 : (nameKeyTxt ++ (n1 ++ (tidKeyTxt ++ (i1 ++ (descKeyTxt ++ (d1 ++ ('"' :: (rcMidPre ++ ('"' :: (b1 ++ ('"' :: ('\x7d' :: (',' :: (' ' :: ('\x7b' :: (nameKeyTxt ++ (n2 ++ (tidKeyTxt ++ (i2 ++ (descKeyTxt ++ (d2 ++ ('"' :: cutLateTail)))))))))))))))))))))).length - (rcMidPre ++ ('"' :: (b1 ++ ('"' :: ('\x7d' :: (',' :: (' ' :: ('\x7b' :: (nameKeyTxt ++ (n2 ++ (tidKeyTxt ++ (i2 ++ (descKeyTxt ++ (d2 ++ ('"' :: cutLateTail))))))))))))))).length = 44 + (n1.length + (i1.length + d1.length)) := by
    simp [List.length_append, List.length_cons]
    omega
  rw [hl1]
  have hp1 : 21 + (44 + (n1.length + (i1.length + d1.length))) = 65 + (n1.length + (i1.length + d1.length)) := by omega
  rw [hp1]
  have hf2 : (nameKeyTxt ++ (n1 ++ (tidKeyTxt ++ (i1 ++ (descKeyTxt ++ (d1 ++ ('"' :: (rcMidPre ++ ('"' :: (b1 ++ ('"' :: ('\x7d' :: (',' :: (' ' :: ('\x7b' :: (nameKeyTxt ++ (n2 ++ (tidKeyTxt ++ (i2 ++ (descKeyTxt ++ (d2 ++ ('"' :: cutLateTail)))))))))))))))))))))).length
      = (rcMidPre.length + (1 + b1.length)) + ((nameKeyTxt ++ (n2 ++ (tidKeyTxt ++ (i2 ++ (descKeyTxt ++ (d2 ++ ('"' :: cutLateTail))))))).length + (49 + (n1.length + (i1.length + d1.length)))) := by
    simp [List.length_append, List.length_cons]
    omega
  rw [hf2]
  rw [ftg_skip_block rcMidPre b1 '\x7d' (',' :: (' ' :: ('\x7b' :: (nameKeyTxt ++ (n2 ++ (tidKeyTxt ++ (i2 ++ (descKeyTxt ++ (d2 ++ ('"' :: cutLateTail))))))))))
    (by decide) hb1 (by decide) (by decide)]
  have hp2 : 65 + (n1.length + (i1.length + d1.length)) + (rcMidPre.length + (1 + b1.length))
      = 82 + (n1.length + (i1.length + (d1.length + b1.length))) := by omega
  rw [hp2]
  rw [show '"' :: ('\x7d' :: (',' :: (' ' :: ('\x7b' :: (nameKeyTxt ++ (n2 ++ (tidKeyTxt ++ (i2 ++ (descKeyTxt ++ (d2 ++ ('"' :: cutLateTail))))))))))) = "\"\x7d, \x7b".data ++ (nameKeyTxt ++ (n2 ++ (tidKeyTxt ++ (i2 ++ (descKeyTxt ++ (d2 ++ ('"' :: cutLateTail))))))) from rfl]
  have hf3 : (nameKeyTxt ++ (n2 ++ (tidKeyTxt ++ (i2 ++ (descKeyTxt ++ (d2 ++ ('"' :: cutLateTail))))))).length + (49 + (n1.length + (i1.length + d1.length)))
      = ("\"\x7d, \x7b".data).length + ((nameKeyTxt ++ (n2 ++ (tidKeyTxt ++ (i2 ++ (descKeyTxt ++ (d2 ++ ('"' :: cutLateTail))))))).length + (44 + (n1.length + (i1.length + d1.length)))) := by omega
  rw [hf3]
  have hsk2 : ∀ k, k < ("\"\x7d, \x7b".data).length →
      matchTriple (("\"\x7d, \x7b".data).drop k ++ (nameKeyTxt ++ (n2 ++ (tidKeyTxt ++ (i2 ++ (descKeyTxt ++ (d2 ++ ('"' :: cutLateTail)))))))) = none :=
    fun k hk => matchTriple_none _
      (keyFailLocal_sound 'n' "ame".data _ (by decide) (nameKeyTxt ++ (n2 ++ (tidKeyTxt ++ (i2 ++ (descKeyTxt ++ (d2 ++ ('"' :: cutLateTail))))))) k hk)
  rw [ftg_skip ("\"\x7d, \x7b".data) (nameKeyTxt ++ (n2 ++ (tidKeyTxt ++ (i2 ++ (descKeyTxt ++ (d2 ++ ('"' :: cutLateTail))))))) hsk2 ((nameKeyTxt ++ (n2 ++ (tidKeyTxt ++ (i2 ++ (descKeyTxt ++ (d2 ++ ('"' :: cutLateTail))))))).length + (44 + (n1.length + (i1.length + d1.length)))) (82 + (n1.length + (i1.length + (d1.length + b1.length))))]
  have hp3 : 82 + (n1.length + (i1.length + (d1.length + b1.length))) + ("\"\x7d, \x7b".data).length = 87 + (n1.length + (i1.length + (d1.length + b1.length))) := by omega
  rw [hp3]
  have hf4 : (nameKeyTxt ++ (n2 ++ (tidKeyTxt ++ (i2 ++ (descKeyTxt ++ (d2 ++ ('"' :: cutLateTail))))))).length + (44 + (n1.length + (i1.length + d1.length))) = ((nameKeyTxt ++ (n2 ++ (tidKeyTxt ++ (i2 ++ (descKeyTxt ++ (d2 ++ ('"' :: cutLateTail))))))).length + (43 + (n1.length + (i1.length + d1.length)))) + 1 := by
    omega
  rw [hf4]
  have hm2 : matchTriple (nameKeyTxt ++ (n2 ++ (tidKeyTxt ++ (i2 ++ (descKeyTxt ++ (d2 ++ ('"' :: cutLateTail)))))))
      = some ((String.mk n2, String.mk i2, String.mk d2), cutLateTail) :=
    matchTriple_succ n2 i2 d2 cutLateTail hn2 hi2 hd2 hn2e hi2e
  rw [ftg_match ((nameKeyTxt ++ (n2 ++ (tidKeyTxt ++ (i2 ++ (descKeyTxt ++ (d2 ++ ('"' :: cutLateTail))))))).length + (43 + (n1.length + (i1.length + d1.length)))) (87 + (n1.length + (i1.length + (d1.length + b1.length)))) (nameKeyTxt ++ (n2 ++ (tidKeyTxt ++ (i2 ++ (descKeyTxt ++ (d2 ++ ('"' :: cutLateTail)))))))
    (String.mk n2, String.mk i2, String.mk d2) cutLateTail hm2]
  have hl2 : (nameKeyTxt ++ (n2 ++ (tidKeyTxt ++ (i2 ++ (descKeyTxt ++ (d2 ++ ('"' :: cutLateTail))))))).length - cutLateTail.length = 44 + (n2.length + (i2.length + d2.length)) := by
    simp [List.length_append, List.length_cons]
    omega
  rw [hl2]
  have hp4 : 87 + (n1.length + (i1.length + (d1.length + b1.length))) + (44 + (n2.length + (i2.length + d2.length))) = 131 + (n1.length + (i1.length + (d1.length + (b1.length + (n2.length + (i2.length + d2.length)))))) := by omega
  rw [hp4]
  rw [ftg_all_fail cutLateTail (by decide) _ _ (by omega)]

theorem ftg_truncEarly (n1 i1 d1 b1 n2 i2 : List Char)
    (hn1 : ∀ c ∈ n1, c ≠ '"') (hi1 : ∀ c ∈ i1, c ≠ '"')
    (hd1 : ∀ c ∈ d1, c ≠ '"') (hb1 : ∀ c ∈ b1, c ≠ '"')
    (hn2 : ∀ c ∈ n2, c ≠ '"') (hi2 : ∀ c ∈ i2, c ≠ '"')
    (hn1e : n1 ≠ []) (hi1e : i1 ≠ []) (hn2e : n2 ≠ []) (hi2e : i2 ≠ []) :
    findTriplesGo ((truncEarly n1 i1 d1 b1 n2 i2).length + 1) 0
      (truncEarly n1 i1 d1 b1 n2 i2)
      = [(21, (String.mk n1, String.mk i1, String.mk d1),
          65 + (n1.length + (i1.length + d1.length)))] := by
  have L1 : tsHead.length = 21 := rfl
  have L2 : nameKeyTxt.length = 9 := rfl
  have L3 : tidKeyTxt.length = 15 := rfl
  have L4 : descKeyTxt.length = 19 := rfl
  have L5 : rcMidPre.length = 16 := rfl
  have L7 : cutEarlyTail.length = 9 := rfl
  have L8 : ("\"\x7d, \x7b".data).length = 5 := rfl
  have L9 : ("name\": ".data).length = 7 := rfl
  have L10 : ("\", \"test_id\": ".data).length = 14 := rfl
  have L11 : ('"' :: (',' :: (' ' :: ('"' :: ('d' :: ('e' :: ('s' :: ('c' :: ('r' :: ('i' :: ([] : List Char))))))))))).length = 10 := rfl
  unfold truncEarly
  rw [show sepBrace ++ (nameKeyTxt ++ (n2 ++ (tidKeyTxt ++ (i2 ++ ('"' :: cutEarlyTail)))))
      = '\x7d' :: (',' :: (' ' :: ('\x7b' :: (nameKeyTxt ++ (n2 ++ (tidKeyTxt ++ (i2 ++ ('"' :: cutEarlyTail)))))))) from rfl]
  have hf1 : (tsHead ++ (nameKeyTxt ++ (n1 ++ (tidKeyTxt ++ (i1 ++ (descKeyTxt ++ (d1 ++ ('"' :: (rcMidPre ++ ('"' :: (b1 ++ ('"' :: ('\x7d' :: (',' :: (' ' :: ('\x7b' :: (nameKeyTxt ++ (n2 ++ (tidKeyTxt ++ (i2 ++ ('"' :: cutEarlyTail))))))))))))))))))))).length + 1
      = tsHead.length + ((nameKeyTxt ++ (n1 ++ (tidKeyTxt ++ (i1 ++ (descKeyTxt ++ (d1 ++ ('"' :: (rcMidPre ++ ('"' :: (b1 ++ ('"' :: ('\x7d' :: (',' :: (' ' :: ('\x7b' :: (nameKeyTxt ++ (n2 ++ (tidKeyTxt ++ (i2 ++ ('"' :: cutEarlyTail)))))))))))))))))))).length + 1) := by
    simp [List.length_append, List.length_cons]
    omega
  rw [hf1]
  have hsk1 : ∀ k, k < tsHead.length →
      matchTriple (tsHead.drop k ++ (nameKeyTxt ++ (n1 ++ (tidKeyTxt ++ (i1 ++ (descKeyTxt ++ (d1 ++ ('"' :: (rcMidPre ++ ('"' :: (b1 ++ ('"' :: ('\x7d' :: (',' :: (' ' :: ('\x7b' :: (nameKeyTxt ++ (n2 ++ (tidKeyTxt ++ (i2 ++ ('"' :: cutEarlyTail))))))))))))))))))))) = none :=
    fun k hk => matchTriple_none _
      (keyFailLocal_sound 'n' "ame".data tsHead (by decide) (nameKeyTxt ++ (n1 ++ (tidKeyTxt ++ (i1 ++ (descKeyTxt ++ (d1 ++ ('"' :: (rcMidPre ++ ('"' :: (b1 ++ ('"' :: ('\x7d' :: (',' :: (' ' :: ('\x7b' :: (nameKeyTxt ++ (n2 ++ (tidKeyTxt ++ (i2 ++ ('"' :: cutEarlyTail)))))))))))))))))))) k hk)
  rw [ftg_skip tsHead (nameKeyTxt ++ (n1 ++ (tidKeyTxt ++ (i1 ++ (descKeyTxt ++ (d1 ++ ('"' :: (rcMidPre ++ ('"' :: (b1 ++ ('"' :: ('\x7d' :: (',' :: (' ' :: ('\x7b' :: (nameKeyTxt ++ (n2 ++ (tidKeyTxt ++ (i2 ++ ('"' :: cutEarlyTail)))))))))))))))))))) hsk1 ((nameKeyTxt ++ (n1 ++ (tidKeyTxt ++ (i1 ++ (descKeyTxt ++ (d1 ++ ('"' :: (rcMidPre ++ ('"' :: (b1 ++ ('"' :: ('\x7d' :: (',' :: (' ' :: ('\x7b' :: (nameKeyTxt ++ (n2 ++ (tidKeyTxt ++ (i2 ++ ('"' :: cutEarlyTail)))))))))))))))))))).length + 1) 0]
  rw [show (0 : Nat) + tsHead.length = 21 from rfl]
  have hm1 : matchTriple (nameKeyTxt ++ (n1 ++ (tidKeyTxt ++ (i1 ++ (descKeyTxt ++ (d1 ++ ('"' :: (rcMidPre ++ ('"' :: (b1 ++ ('"' :: ('\x7d' :: (',' :: (' ' :: ('\x7b' :: (nameKeyTxt ++ (n2 ++ (tidKeyTxt ++ (i2 ++ ('"' :: cutEarlyTail))))))))))))))))))))
      = some ((String.mk n1, String.mk i1, String.mk d1), rcMidPre ++ ('"' :: (b1 ++ ('"' :: ('\x7d' :: (',' :: (' ' :: ('\x7b' :: (nameKeyTxt ++ (n2 ++ (tidKeyTxt ++ (i2 ++ ('"' :: cutEarlyTail))))))))))))) :=
    matchTriple_succ n1 i1 d1 (rcMidPre ++ ('"' :: (b1 ++ ('"' :: ('\x7d' :: (',' :: (' ' :: ('\x7b' :: (nameKeyTxt ++ (n2 ++ (tidKeyTxt ++ (i2 ++ ('"' :: cutEarlyTail))))))))))))) hn1 hi1 hd1 hn1e hi1e
  rw [ftg_match ((nameKeyTxt ++ (n1 ++ (tidKeyTxt ++ (i1 ++ (descKeyTxt ++ (d1 ++ ('"' :: (rcMidPre ++ ('"' :: (b1 ++ ('"' :: ('\x7d' :: (',' :: (' ' :: ('\x7b' :: (nameKeyTxt ++ (n2 ++ (tidKeyTxt ++ (i2 ++ ('"' :: cutEarlyTail)))))))))))))))))))).length) 21 (nameKeyTxt ++ (n1 ++ (tidKeyTxt ++ (i1 ++ (descKeyTxt ++ (d1 ++ ('"' :: (rcMidPre ++ ('"' :: (b1 ++ ('"' :: ('\x7d' :: (',' :: (' ' :: ('\x7b' :: (nameKeyTxt ++ (n2 ++ (tidKeyTxt ++ (i2 ++ ('"' :: cutEarlyTail))))))))))))))))))))
    (String.mk n1, String.mk i1, String.mk d1) (rcMidPre ++ ('"' :: (b1 ++ ('"' :: ('\x7d' :: (',' :: (' ' :: ('\x7b' :: (nameKeyTxt ++ (n2 ++ (tidKeyTxt ++ (i2 ++ ('"' :: cutEarlyTail))))))))))))) hm1]
  have hl1 : (nameKeyTxt ++ (n1 ++ (tidKeyTxt ++ (i1 ++ (descKeyTxt ++ (d1 ++ ('"' :: (rcMidPre ++ ('"' :: (b1 ++ ('"' :: ('\x7d' :: (',' :: (' ' :: ('\x7b' :: (nameKeyTxt ++ (n2 ++ (tidKeyTxt ++ (i2 ++ ('"' :: cutEarlyTail)))))))))))))))))))).length - (rcMidPre ++ ('"' :: (b1 ++ ('"' :: ('\x7d' :: (',' :: (' ' :: ('\x7b' :: (nameKeyTxt ++ (n2 ++ (tidKeyTxt ++ (i2 ++ ('"' :: cutEarlyTail))))))))))))).length = 44 + (n1.length + (i1.length + d1.length)) := by
    simp [List.length_append, List.length_cons]
    omega
  rw [hl1]
  have hp1 : 21 + (44 + (n1.length + (i1.length + d1.length))) = 65 + (n1.length + (i1.length + d1.length)) := by omega
  rw [hp1]
  have hf2 : (nameKeyTxt ++ (n1 ++ (tidKeyTxt ++ (i1 ++ (descKeyTxt ++ (d1 ++ ('"' :: (rcMidPre ++ ('"' :: (b1 ++ ('"' :: ('\x7d' :: (',' :: (' ' :: ('\x7b' :: (nameKeyTxt ++ (n2 ++ (tidKeyTxt ++ (i2 ++ ('"' :: cutEarlyTail)))))))))))))))))))).length
      = (rcMidPre.length + (1 + b1.length)) + ((nameKeyTxt ++ (n2 ++ (tidKeyTxt ++ (i2 ++ ('"' :: cutEarlyTail))))).length + (49 + (n1.length + (i1.length + d1.length)))) := by
    simp [List.length_append, List.length_cons]
    omega
  rw [hf2]
  rw [ftg_skip_block rcMidPre b1 '\x7d' (',' :: (' ' :: ('\x7b' :: (nameKeyTxt ++ (n2 ++ (tidKeyTxt ++ (i2 ++ ('"' :: cutEarlyTail))))))))
    (by decide) hb1 (by decide) (by decide)]
  have hp2 : 65 + (n1.length + (i1.length + d1.length)) + (rcMidPre.length + (1 + b1.length))
      = 82 + (n1.length + (i1.length + (d1.length + b1.length))) := by omega
  rw [hp2]
  rw [show '"' :: ('\x7d' :: (',' :: (' ' :: ('\x7b' :: (nameKeyTxt ++ (n2 ++ (tidKeyTxt ++ (i2 ++ ('"' :: cutEarlyTail))))))))) = "\"\x7d, \x7b".data ++ (nameKeyTxt ++ (n2 ++ (tidKeyTxt ++ (i2 ++ ('"' :: cutEarlyTail))))) from rfl]
  have hf3 : (nameKeyTxt ++ (n2 ++ (tidKeyTxt ++ (i2 ++ ('"' :: cutEarlyTail))))).length + (49 + (n1.length + (i1.length + d1.length)))
      = ("\"\x7d, \x7b".data).length + ((nameKeyTxt ++ (n2 ++ (tidKeyTxt ++ (i2 ++ ('"' :: cutEarlyTail))))).length + (44 + (n1.length + (i1.length + d1.length)))) := by omega
  rw [hf3]
  have hsk2 : ∀ k, k < ("\"\x7d, \x7b".data).length →
      matchTriple (("\"\x7d, \x7b".data).drop k ++ (nameKeyTxt ++ (n2 ++ (tidKeyTxt ++ (i2 ++ ('"' :: cutEarlyTail)))))) = none :=
    fun k hk => matchTriple_none _
      (keyFailLocal_sound 'n' "ame".data _ (by decide) (nameKeyTxt ++ (n2 ++ (tidKeyTxt ++ (i2 ++ ('"' :: cutEarlyTail))))) k hk)
  rw [ftg_skip ("\"\x7d, \x7b".data) (nameKeyTxt ++ (n2 ++ (tidKeyTxt ++ (i2 ++ ('"' :: cutEarlyTail))))) hsk2 ((nameKeyTxt ++ (n2 ++ (tidKeyTxt ++ (i2 ++ ('"' :: cutEarlyTail))))).length + (44 + (n1.length + (i1.length + d1.length)))) (82 + (n1.length + (i1.length + (d1.length + b1.length))))]
  have hp3 : 82 + (n1.length + (i1.length + (d1.length + b1.length))) + ("\"\x7d, \x7b".data).length = 87 + (n1.length + (i1.length + (d1.length + b1.length))) := by omega
  rw [hp3]
  have hf4 : (nameKeyTxt ++ (n2 ++ (tidKeyTxt ++ (i2 ++ ('"' :: cutEarlyTail))))).length + (44 + (n1.length + (i1.length + d1.length)))
      = (n2.length + (i2.length + (77 + (n1.length + (i1.length + d1.length))))) + 1 := by
    simp [List.length_append, List.length_cons]
    omega
  rw [hf4]
  have hT2 : matchTriple ('"' :: ("name\": ".data ++ ('"' :: (n2 ++ (tidKeyTxt ++
      (i2 ++ ('"' :: cutEarlyTail))))))) = none :=
    matchTriple_early_cut n2 i2 hn2 hi2 hn2e hi2e
  rw [show nameKeyTxt ++ (n2 ++ (tidKeyTxt ++ (i2 ++ ('"' :: cutEarlyTail))))
      = '"' :: ("name\": ".data ++ ('"' :: (n2 ++ (tidKeyTxt ++
        (i2 ++ ('"' :: cutEarlyTail)))))) from rfl]
  rw [ftg_step (n2.length + (i2.length + (77 + (n1.length + (i1.length + d1.length))))) (87 + (n1.length + (i1.length + (d1.length + b1.length)))) '"' _ hT2]
  rw [show tidKeyTxt ++ (i2 ++ ('"' :: cutEarlyTail))
      = '"' :: (',' :: (' ' :: ("\"test_id\": \"".data ++ (i2 ++ ('"' :: cutEarlyTail)))))
      from rfl]
  have hf5 : n2.length + (i2.length + (77 + (n1.length + (i1.length + d1.length))))
      = (("name\": ".data).length + (1 + n2.length)) + (i2.length + (69 + (n1.length + (i1.length + d1.length)))) := by
    omega
  rw [hf5]
  rw [ftg_skip_block ("name\": ".data) n2 ','
    (' ' :: ("\"test_id\": \"".data ++ (i2 ++ ('"' :: cutEarlyTail)))) (by decide) hn2
    (by decide) (by decide)]
  rw [show '"' :: (',' :: (' ' :: ("\"test_id\": \"".data ++ (i2 ++ ('"' :: cutEarlyTail)))))
      = "\", \"test_id\": ".data ++ ('"' :: (i2 ++ ('"' :: (',' :: (' ' :: ('"' :: ('d' :: ('e' :: ('s' :: ('c' :: ('r' :: ('i' :: ([] : List Char))))))))))))) from rfl]
  have hf6 : i2.length + (69 + (n1.length + (i1.length + d1.length)))
      = (("\", \"test_id\": ".data).length + (1 + i2.length)) + (54 + (n1.length + (i1.length + d1.length))) := by omega
  rw [hf6]
  rw [ftg_skip_block ("\", \"test_id\": ".data) i2 ',' (' ' :: ('"' :: ('d' :: ('e' :: ('s' :: ('c' :: ('r' :: ('i' :: ([] : List Char))))))))) (by decide) hi2
    (by decide) (by decide)]
  rw [ftg_all_fail ('"' :: (',' :: (' ' :: ('"' :: ('d' :: ('e' :: ('s' :: ('c' :: ('r' :: ('i' :: ([] : List Char))))))))))) (by decide) _ _ (by omega)]

theorem robotSearch_core (n1 i1 d1 b1 W : List Char)
    (hn1 : ∀ c ∈ n1, c ≠ '"') (hi1 : ∀ c ∈ i1, c ≠ '"')
    (hd1 : ∀ c ∈ d1, c ≠ '"') (hb1 : ∀ c ∈ b1, c ≠ '"') :
    robotSearch (nameKeyTxt ++ (n1 ++ (tidKeyTxt ++ (i1 ++ (descKeyTxt ++ (d1 ++ ('"' :: (rcMidPre ++ ('"' :: (b1 ++ ('"' :: ('\x7d' :: W)))))))))))) = some b1 := by
  rw [show nameKeyTxt ++ (n1 ++ (tidKeyTxt ++ (i1 ++ (descKeyTxt ++ (d1 ++ ('"' :: (rcMidPre ++ ('"' :: (b1 ++ ('"' :: ('\x7d' :: W)))))))))))
      = "\"name\": ".data ++ ('"' :: (n1 ++ ('"' :: (',' :: (' ' :: ("\"test_id\": \"".data ++ (i1 ++ (descKeyTxt ++ (d1 ++ ('"' :: (rcMidPre ++ ('"' :: (b1 ++ ('"' :: ('\x7d' :: W))))))))))))))) from rfl]
  rw [robotSearch_skip_block ("\"name\": ".data) n1 ',' _ (by decide) hn1
    (by decide) (by decide)]
  rw [show '"' :: (',' :: (' ' :: ("\"test_id\": \"".data ++ (i1 ++ (descKeyTxt ++ (d1 ++ ('"' :: (rcMidPre ++ ('"' :: (b1 ++ ('"' :: ('\x7d' :: W))))))))))))
      = "\", \"test_id\": ".data ++ ('"' :: (i1 ++ ('"' :: (',' :: (' ' :: ("\"description\": \"".data ++ (d1 ++ ('"' :: (rcMidPre ++ ('"' :: (b1 ++ ('"' :: ('\x7d' :: W))))))))))))) from rfl]
  rw [robotSearch_skip_block ("\", \"test_id\": ".data) i1 ',' _ (by decide) hi1
    (by decide) (by decide)]
  rw [show '"' :: (',' :: (' ' :: ("\"description\": \"".data ++ (d1 ++ ('"' :: (rcMidPre ++ ('"' :: (b1 ++ ('"' :: ('\x7d' :: W))))))))))
      = "\", \"description\": ".data ++ ('"' :: (d1 ++ ('"' :: (',' :: (' ' :: ("\"robot_code\": ".data ++ ('"' :: (b1 ++ ('"' :: ('\x7d' :: W)))))))))) from rfl]
  rw [robotSearch_skip_block ("\", \"description\": ".data) d1 ',' _ (by decide) hd1
    (by decide) (by decide)]
  rw [show '"' :: (',' :: (' ' :: ("\"robot_code\": ".data ++ ('"' :: (b1 ++ ('"' :: ('\x7d' :: W)))))))
      = "\", ".data ++ ("\"robot_code\": ".data ++ ('"' :: (b1 ++ ('"' :: ('\x7d' :: W))))) from rfl]
  rw [robotSearch_skip ("\", ".data) _ (fun k hk => robotAt_none _
    (keyFailLocal_sound 'r' "obot_code".data ("\", ".data) (by decide) _ k hk))]
  rw [show "\"robot_code\": ".data ++ ('"' :: (b1 ++ ('"' :: ('\x7d' :: W))))
      = '"' :: ("robot_code\": ".data ++ ('"' :: (b1 ++ ('"' :: ('\x7d' :: W))))) from rfl]
  apply robotSearch_found
  have hmk : matchKeyQuote "robot_code".data ('"' :: ("robot_code\": ".data ++ ('"' :: (b1 ++ ('"' :: ('\x7d' :: W))))))
      = some (b1 ++ ('"' :: ('\x7d' :: W))) :=
    matchKeyQuote_robot _
  unfold robotAt
  rw [hmk]
  simp only [Option.some_bind]
  exact lazyAnyCap_clean b1 _ hb1 (robotLookahead_brace _)

theorem robotSearch_window (n1 i1 d1 b1 : List Char) (T : List Char)
    (hn1 : ∀ c ∈ n1, c ≠ '"') (hi1 : ∀ c ∈ i1, c ≠ '"')
    (hd1 : ∀ c ∈ d1, c ≠ '"') (hb1 : ∀ c ∈ b1, c ≠ '"')
    (hblen : b1.length ≤ 1900) :
    robotSearch ((nameKeyTxt ++ (n1 ++ (tidKeyTxt ++ (i1 ++ (descKeyTxt ++ (d1 ++ ('"' :: (rcMidPre ++ ('"' :: (b1 ++ ('"' :: ('\x7d' :: (T))))))))))))).take
      ((44 + (n1.length + (i1.length + d1.length))) + 2000)) = some b1 := by
  have L2 : nameKeyTxt.length = 9 := rfl
  have L3 : tidKeyTxt.length = 15 := rfl
  have L4 : descKeyTxt.length = 19 := rfl
  have L5 : rcMidPre.length = 16 := rfl
  have hshape : ∀ T0 : List Char,
      (nameKeyTxt ++ (n1 ++ (tidKeyTxt ++ (i1 ++ (descKeyTxt ++ (d1 ++ ('"' :: (rcMidPre ++ ('"' :: (b1 ++ ('"' :: ('\x7d' :: (T0)))))))))))))
      = (nameKeyTxt ++ (n1 ++ (tidKeyTxt ++ (i1 ++ (descKeyTxt ++ (d1 ++ ('"' :: (rcMidPre ++ ('"' :: (b1 ++ ('"' :: ('\x7d' :: (([] : List Char)))))))))))))) ++ T0 := by
    intro T0
    simp [List.append_assoc]
  have hhead : (nameKeyTxt ++ (n1 ++ (tidKeyTxt ++ (i1 ++ (descKeyTxt ++ (d1 ++ ('"' :: (rcMidPre ++ ('"' :: (b1 ++ ('"' :: ('\x7d' :: (([] : List Char)))))))))))))).length ≤ (44 + (n1.length + (i1.length + d1.length))) + 2000 := by
    simp [List.length_append, List.length_cons]
    omega
  rw [hshape T, List.take_append_eq_append_take,
    List.take_of_length_le hhead,
    ← hshape (T.take ((44 + (n1.length + (i1.length + d1.length))) + 2000
      - (nameKeyTxt ++ (n1 ++ (tidKeyTxt ++ (i1 ++ (descKeyTxt ++ (d1 ++ ('"' :: (rcMidPre ++ ('"' :: (b1 ++ ('"' :: ('\x7d' :: (([] : List Char)))))))))))))).length))]
  exact robotSearch_core n1 i1 d1 b1 _ hn1 hi1 hd1 hb1

theorem robotSearch_lateTriple2_none (n2 i2 d2 : List Char)
    (hn2 : ∀ c ∈ n2, c ≠ '"') (hi2 : ∀ c ∈ i2, c ≠ '"')
    (hd2 : ∀ c ∈ d2, c ≠ '"') :
    robotSearch (nameKeyTxt ++ (n2 ++ (tidKeyTxt ++ (i2 ++ (descKeyTxt ++ (d2 ++ ('"' :: cutLateTail))))))) = none := by
  rw [show nameKeyTxt ++ (n2 ++ (tidKeyTxt ++ (i2 ++ (descKeyTxt ++ (d2 ++ ('"' :: cutLateTail))))))
      = "\"name\": ".data ++ ('"' :: (n2 ++ ('"' :: (',' :: (' ' :: ("\"test_id\": \"".data ++ (i2 ++ (descKeyTxt ++ (d2 ++ ('"' :: cutLateTail)))))))))) from rfl]
  rw [robotSearch_skip_block ("\"name\": ".data) n2 ',' _ (by decide) hn2
    (by decide) (by decide)]
  rw [show '"' :: (',' :: (' ' :: ("\"test_id\": \"".data ++ (i2 ++ (descKeyTxt ++ (d2 ++ ('"' :: cutLateTail)))))))
      = "\", \"test_id\": ".data ++ ('"' :: (i2 ++ ('"' :: (',' :: (' ' :: ("\"description\": \"".data ++ (d2 ++ ('"' :: cutLateTail)))))))) from rfl]
  rw [robotSearch_skip_block ("\", \"test_id\": ".data) i2 ',' _ (by decide) hi2
    (by decide) (by decide)]
  rw [show '"' :: (',' :: (' ' :: ("\"description\": \"".data ++ (d2 ++ ('"' :: cutLateTail)))))
      = "\", \"description\": ".data ++ ('"' :: (d2 ++ ('"' :: (',' :: (' ' :: ('"' :: ('r' :: ('o' :: ('b' :: ('o' :: ('t' :: ('_' :: ('c' :: ([] : List Char)))))))))))))) from rfl]
  rw [robotSearch_skip_block ("\", \"description\": ".data) d2 ',' _ (by decide) hd2
    (by decide) (by decide)]
  decide

theorem regex_truncLate (mn : String) (n1 i1 d1 b1 n2 i2 d2 : List Char)
    (hn1 : ∀ c ∈ n1, c ≠ '"') (hi1 : ∀ c ∈ i1, c ≠ '"')
    (hd1 : ∀ c ∈ d1, c ≠ '"') (hb1 : ∀ c ∈ b1, c ≠ '"')
    (hn2 : ∀ c ∈ n2, c ≠ '"') (hi2 : ∀ c ∈ i2, c ≠ '"')
    (hd2 : ∀ c ∈ d2, c ≠ '"')
    (hn1e : n1 ≠ []) (hi1e : i1 ≠ []) (hn2e : n2 ≠ []) (hi2e : i2 ≠ [])
    (hblen : b1.length ≤ 1900)
    (hbw : hasNonWs (String.mk (unescapeBody b1)) = true) :
    extractScenariosByRegex mn (truncLate n1 i1 d1 b1 n2 i2 d2)
      = [⟨.str (String.mk n1), .str (String.mk i1), .str (String.mk d1),
          .str "functional", .arr [], String.mk (unescapeBody b1)⟩,
         ⟨.str (String.mk n2), .str (String.mk i2), .str (String.mk d2),
          .str "functional", .arr [],
          "*** Test Cases ***\n" ++ String.mk n2 ++ "\n    [Documentation]    "
        ++ String.mk d2 ++ "\n    Log    TODO: Implement test"⟩] := by
  have L1 : tsHead.length = 21 := rfl
  have L2 : nameKeyTxt.length = 9 := rfl
  have L3 : tidKeyTxt.length = 15 := rfl
  have L4 : descKeyTxt.length = 19 := rfl
  have L5 : rcMidPre.length = 16 := rfl
  have L7 : cutLateTail.length = 10 := rfl
  unfold extractScenariosByRegex
  rw [ftg_truncLate n1 i1 d1 b1 n2 i2 d2 hn1 hi1 hd1 hb1 hn2 hi2 hd2
    hn1e hi1e hn2e hi2e]
  simp only [List.map_cons, List.map_nil]
  have hdrop1 : (truncLate n1 i1 d1 b1 n2 i2 d2).drop 21
      = nameKeyTxt ++ (n1 ++ (tidKeyTxt ++ (i1 ++ (descKeyTxt ++ (d1 ++ ('"' :: (rcMidPre ++ ('"' :: (b1 ++ ('"' :: ('\x7d' :: (',' :: (' ' :: ('\x7b' :: (nameKeyTxt ++ (n2 ++ (tidKeyTxt ++ (i2 ++ (descKeyTxt ++ (d2 ++ ('"' :: cutLateTail))))))))))))))))))))) := by
    unfold truncLate
    rw [show sepBrace ++ (nameKeyTxt ++ (n2 ++ (tidKeyTxt ++ (i2 ++ (descKeyTxt ++ (d2 ++ ('"' :: cutLateTail)))))))
        = '\x7d' :: (',' :: (' ' :: ('\x7b' :: (nameKeyTxt ++ (n2 ++ (tidKeyTxt ++ (i2 ++ (descKeyTxt ++ (d2 ++ ('"' :: cutLateTail)))))))))) from rfl]
    rw [show (21 : Nat) = tsHead.length from rfl]
    exact List.drop_left _ _
  have hidx1 : 65 + (n1.length + (i1.length + d1.length)) + 2000 - 21 = 44 + (n1.length + (i1.length + d1.length)) + 2000 := by omega
  rw [hdrop1, hidx1,
    robotSearch_window n1 i1 d1 b1 (',' :: (' ' :: ('\x7b' :: (nameKeyTxt ++ (n2 ++ (tidKeyTxt ++ (i2 ++ (descKeyTxt ++ (d2 ++ ('"' :: cutLateTail))))))))))
      hn1 hi1 hd1 hb1 hblen]
  have hdrop2 : (truncLate n1 i1 d1 b1 n2 i2 d2).drop (87 + (n1.length + (i1.length + (d1.length + b1.length))))
      = nameKeyTxt ++ (n2 ++ (tidKeyTxt ++ (i2 ++ (descKeyTxt ++ (d2 ++ ('"' :: cutLateTail)))))) := by
    unfold truncLate
    rw [show sepBrace ++ (nameKeyTxt ++ (n2 ++ (tidKeyTxt ++ (i2 ++ (descKeyTxt ++ (d2 ++ ('"' :: cutLateTail)))))))
        = '\x7d' :: (',' :: (' ' :: ('\x7b' :: (nameKeyTxt ++ (n2 ++ (tidKeyTxt ++ (i2 ++ (descKeyTxt ++ (d2 ++ ('"' :: cutLateTail)))))))))) from rfl]
    have hsplit : tsHead ++ (nameKeyTxt ++ (n1 ++ (tidKeyTxt ++ (i1 ++ (descKeyTxt ++ (d1 ++ ('"' :: (rcMidPre ++ ('"' :: (b1 ++ ('"' :: ('\x7d' :: (',' :: (' ' :: ('\x7b' :: (nameKeyTxt ++ (n2 ++ (tidKeyTxt ++ (i2 ++ (descKeyTxt ++ (d2 ++ ('"' :: cutLateTail))))))))))))))))))))))
        = (tsHead ++ (nameKeyTxt ++ (n1 ++ (tidKeyTxt ++ (i1 ++ (descKeyTxt ++ (d1 ++ ('"' :: (rcMidPre ++ ('"' :: (b1 ++ ('"' :: ('\x7d' :: (',' :: (' ' :: ('\x7b' :: ([] : List Char))))))))))))))))) ++ (nameKeyTxt ++ (n2 ++ (tidKeyTxt ++ (i2 ++ (descKeyTxt ++ (d2 ++ ('"' :: cutLateTail))))))) := by
      simp [List.append_assoc]
    rw [hsplit]
    have hplen : (tsHead ++ (nameKeyTxt ++ (n1 ++ (tidKeyTxt ++ (i1 ++ (descKeyTxt ++ (d1 ++ ('"' :: (rcMidPre ++ ('"' :: (b1 ++ ('"' :: ('\x7d' :: (',' :: (' ' :: ('\x7b' :: ([] : List Char))))))))))))))))).length = 87 + (n1.length + (i1.length + (d1.length + b1.length))) := by
      simp [List.length_append, List.length_cons]
      omega
    rw [← hplen]
    exact List.drop_left _ _
  have hidx2 : 131 + (n1.length + (i1.length + (d1.length + (b1.length + (n2.length + (i2.length + d2.length)))))) + 2000 - (87 + (n1.length + (i1.length + (d1.length + b1.length))))
      = 44 + (n2.length + (i2.length + d2.length)) + 2000 := by omega
  have htk2 : (nameKeyTxt ++ (n2 ++ (tidKeyTxt ++ (i2 ++ (descKeyTxt ++ (d2 ++ ('"' :: cutLateTail))))))).take (44 + (n2.length + (i2.length + d2.length)) + 2000) = nameKeyTxt ++ (n2 ++ (tidKeyTxt ++ (i2 ++ (descKeyTxt ++ (d2 ++ ('"' :: cutLateTail)))))) :=
    List.take_of_length_le (by
      simp [List.length_append, List.length_cons]
      omega)
  rw [hdrop2, hidx2, htk2, robotSearch_lateTriple2_none n2 i2 d2 hn2 hi2 hd2]
  simp only [Option.getD_some, Option.getD_none]
  rw [if_pos hbw]
  have hub : unescapeBody ([] : List Char) = [] := rfl
  rw [hub]
  have hnw : hasNonWs (String.mk ([] : List Char)) = false := rfl
  simp only [hnw, Bool.false_eq_true, if_false]

theorem regex_truncEarly (mn : String) (n1 i1 d1 b1 n2 i2 : List Char)
    (hn1 : ∀ c ∈ n1, c ≠ '"') (hi1 : ∀ c ∈ i1, c ≠ '"')
    (hd1 : ∀ c ∈ d1, c ≠ '"') (hb1 : ∀ c ∈ b1, c ≠ '"')
    (hn2 : ∀ c ∈ n2, c ≠ '"') (hi2 : ∀ c ∈ i2, c ≠ '"')
    (hn1e : n1 ≠ []) (hi1e : i1 ≠ []) (hn2e : n2 ≠ []) (hi2e : i2 ≠ [])
    (hblen : b1.length ≤ 1900)
    (hbw : hasNonWs (String.mk (unescapeBody b1)) = true) :
    extractScenariosByRegex mn (truncEarly n1 i1 d1 b1 n2 i2)
      = [⟨.str (String.mk n1), .str (String.mk i1), .str (String.mk d1),
          .str "functional", .arr [], String.mk (unescapeBody b1)⟩] := by
  have L1 : tsHead.length = 21 := rfl
  unfold extractScenariosByRegex
  rw [ftg_truncEarly n1 i1 d1 b1 n2 i2 hn1 hi1 hd1 hb1 hn2 hi2
    hn1e hi1e hn2e hi2e]
  simp only [List.map_cons, List.map_nil]
  have hdrop1 : (truncEarly n1 i1 d1 b1 n2 i2).drop 21
      = nameKeyTxt ++ (n1 ++ (tidKeyTxt ++ (i1 ++ (descKeyTxt ++ (d1 ++ ('"' :: (rcMidPre ++ ('"' :: (b1 ++ ('"' :: ('\x7d' :: (',' :: (' ' :: ('\x7b' :: (nameKeyTxt ++ (n2 ++ (tidKeyTxt ++ (i2 ++ ('"' :: cutEarlyTail))))))))))))))))))) := by
    unfold truncEarly
    rw [show sepBrace ++ (nameKeyTxt ++ (n2 ++ (tidKeyTxt ++ (i2 ++ ('"' :: cutEarlyTail)))))
        = '\x7d' :: (',' :: (' ' :: ('\x7b' :: (nameKeyTxt ++ (n2 ++ (tidKeyTxt ++ (i2 ++ ('"' :: cutEarlyTail)))))))) from rfl]
    rw [show (21 : Nat) = tsHead.length from rfl]
    exact List.drop_left _ _
  have hidx1 : 65 + (n1.length + (i1.length + d1.length)) + 2000 - 21 = 44 + (n1.length + (i1.length + d1.length)) + 2000 := by omega
  rw [hdrop1, hidx1,
    robotSearch_window n1 i1 d1 b1 (',' :: (' ' :: ('\x7b' :: (nameKeyTxt ++ (n2 ++ (tidKeyTxt ++ (i2 ++ ('"' :: cutEarlyTail))))))))
      hn1 hi1 hd1 hb1 hblen]
  simp only [Option.getD_some]
  rw [if_pos hbw]

/-- C8 amended: over the whole two-scenario truncated-payload family —
quote-free field texts, non-empty names and test ids, a non-blank script
body of at most 1900 characters, and the trailing scenario cut off either
inside its description key (`truncEarly`) or inside its robot_code key
after the name/test_id/description triple completed (`truncLate`) — the
parser never raises once direct parsing and the control-character repair
have failed (truncation makes both fail: the witness discharges all four
hypotheses): it returns the earlier complete scenario with its own script
body, and the truncated trailing scenario is discarded when its triple was
cut off but returned with a synthesized placeholder body when the triple
survived, because regex salvage runs before truncation repair. -/
theorem truncation_family_recovery (mn s sE : String)
    (n1 i1 d1 b1 n2 i2 d2 : List Char)
    (hs : s.data = truncLate n1 i1 d1 b1 n2 i2 d2)
    (hsE : sE.data = truncEarly n1 i1 d1 b1 n2 i2)
    (hn1 : ∀ c ∈ n1, c ≠ '"') (hi1 : ∀ c ∈ i1, c ≠ '"')
    (hd1 : ∀ c ∈ d1, c ≠ '"') (hb1 : ∀ c ∈ b1, c ≠ '"')
    (hn2 : ∀ c ∈ n2, c ≠ '"') (hi2 : ∀ c ∈ i2, c ≠ '"')
    (hd2 : ∀ c ∈ d2, c ≠ '"')
    (hn1e : n1 ≠ []) (hi1e : i1 ≠ []) (hn2e : n2 ≠ []) (hi2e : i2 ≠ [])
    (hblen : b1.length ≤ 1900)
    (hbw : hasNonWs (String.mk (unescapeBody b1)) = true)
    (hp1 : jsonParse s.data = none)
    (hp2 : jsonParse (fixRobotCodeNewlines s.data) = none)
    (hp3 : jsonParse sE.data = none)
    (hp4 : jsonParse (fixRobotCodeNewlines sE.data) = none) :
    tryParseJsonWithRepair mn s
      = .ok [⟨.str (String.mk n1), .str (String.mk i1), .str (String.mk d1),
          .str "functional", .arr [], String.mk (unescapeBody b1)⟩,
         ⟨.str (String.mk n2), .str (String.mk i2), .str (String.mk d2),
          .str "functional", .arr [],
          "*** Test Cases ***\n" ++ String.mk n2 ++ "\n    [Documentation]    "
          ++ String.mk d2 ++ "\n    Log    TODO: Implement test"⟩] ∧
    tryParseJsonWithRepair mn sE
      = .ok [⟨.str (String.mk n1), .str (String.mk i1), .str (String.mk d1),
          .str "functional", .arr [], String.mk (unescapeBody b1)⟩] := by
  constructor
  · simp only [tryParseJsonWithRepair, hp1, hp2]
    rw [hs, regex_truncLate mn n1 i1 d1 b1 n2 i2 d2 hn1 hi1 hd1 hb1 hn2 hi2
      hd2 hn1e hi1e hn2e hi2e hblen hbw]
    simp only [List.isEmpty_cons, Bool.false_eq_true, if_false]
  · simp only [tryParseJsonWithRepair, hp3, hp4]
    rw [hsE, regex_truncEarly mn n1 i1 d1 b1 n2 i2 hn1 hi1 hd1 hb1 hn2 hi2
      hn1e hi1e hn2e hi2e hblen hbw]
    simp only [List.isEmpty_cons, Bool.false_eq_true, if_false]

set_option maxRecDepth 400000 in
/-- C8 amended witness: the family theorem instantiated at the concrete
truncated payloads (fields a/TC001/d1/body1/b/TC002/d2), all hypotheses
discharged by computation. -/
theorem truncation_family_recovery_witness :
    tryParseJsonWithRepair "m" payloadTruncatedLate
      = .ok [scenTruncComplete, scenTruncSalvaged] ∧
    tryParseJsonWithRepair "m" payloadTruncatedEarly
      = .ok [scenTruncComplete] := by
  have h := truncation_family_recovery "m" payloadTruncatedLate
    payloadTruncatedEarly "a".data "TC001".data "d1".data "body1".data
    "b".data "TC002".data "d2".data rfl rfl
    (by decide) (by decide) (by decide) (by decide) (by decide) (by decide)
    (by decide) (by decide) (by decide) (by decide) (by decide) (by decide)
    (by decide) rfl rfl rfl rfl
  exact ⟨h.1, h.2⟩
